import Mathlib

/-!
# obs-firmware-lite: ranging state machine and event emission

A shallow embedding of `src/main.cpp`.

* `uint32_t` values are natural numbers; every `uint32_t` operation of the
  source that can wrap is written with an explicit reduction modulo `2^32`
  (`u32_add`, `u32_sub`, `u32_mul`).
* Each call of `micros()` / `millis()` is an explicit clock argument.
* `double` / `float` values live in an arbitrary field `K`; the library function
  `sqrt` is a parameter (floating-point rounding is not modelled).
* `pb_encode` (nanopb) is a parameter returning its status and the number of
  bytes written; every call of `packetSerial.send` is logged.
* `Sensor::update(bool master, Sensor slave)` receives `slave` **by value**:
  the model returns the final value of that local copy next to the updated
  object, and the caller (`loop`) drops it, as C++ does.
* The members `interval`, `min_delay`, `no_response_threshold` and `timeout` of
  `Sensor` have default initialisers and are assigned nowhere, so they are
  constants here.
-/

namespace OBS

/-! ## `uint32_t` arithmetic -/

/-- Addition `a + b` on `uint32_t`. -/
def u32_add (a b : Nat) : Nat := (a + b) % 4294967296

/-- Subtraction `a - b` on `uint32_t` (wraps below zero). -/
def u32_sub (a b : Nat) : Nat := (a + (4294967296 - b % 4294967296)) % 4294967296

/-- Multiplication `a * b` on `uint32_t`. -/
def u32_mul (a b : Nat) : Nat := (a * b) % 4294967296

/-! ## Sensor -/

/-- The `class SensorMeasurement` (data members). -/
structure SensorMeasurement where
  start : Nat
  tof : Nat
  timeout : Bool
deriving DecidableEq

/-- The method `SensorMeasurement::get_distance(temperature)`: temperature in degree
celsius, returns meters.  `sqrt` is the library square root. -/
def SensorMeasurement.get_distance {K : Type} [Field K] (sqrt : K → K)
    (m : SensorMeasurement) (temperature : K) : K :=
  let speedOfSound : K := 20.05 * sqrt (273.16 + temperature)
  speedOfSound * (m.tof : K) / 1000000.0 / 2.0

/-- The `class Sensor` (mutable data members; `end_` is the member `end`). -/
structure Sensor where
  measuring : Bool
  source_id : Nat
  trigger_pin : Nat
  echo_pin : Nat
  start : Nat
  triggered : Nat
  end_ : Nat
  trigger_at : Nat
  timeout_at : Nat
  measurement : SensorMeasurement
  has_new_measurement : Bool
deriving DecidableEq

namespace Sensor

/-- Member `uint32_t interval = 40000`: target 40ms interval. -/
def interval : Nat := 40000

/-- Member `uint32_t min_delay = 5000`: min delay 5ms between echo and next trigger. -/
def min_delay : Nat := 5000

/-- Member `uint32_t no_response_threshold = 35000`. -/
def no_response_threshold : Nat := 35000

/-- Member `uint32_t timeout = 50000`. -/
def timeout : Nat := 50000

/-- The constructor `Sensor(source_id_, _trigger_pin, _echo_pin)` with the default
member initialisers, for an object of static storage duration (members without
an initialiser start zeroed). -/
def new (source_id_ _trigger_pin _echo_pin : Nat) : Sensor :=
  { measuring := false
    source_id := source_id_
    trigger_pin := _trigger_pin
    echo_pin := _echo_pin
    start := 0
    triggered := 0
    end_ := 0
    trigger_at := 1
    timeout_at := 0
    measurement := { start := 0, tof := 0, timeout := false }
    has_new_measurement := false }

/-- The method `Sensor::echo()`: the interrupt handler.  `level` is `digitalRead(echo_pin)`,
`us` is `micros()`. -/
def echo (s : Sensor) (level : Bool) (us : Nat) : Sensor :=
  if level then { s with start := us } else { s with end_ := us }

end Sensor

/-- The hardware operations issued by `Sensor::update`. -/
inductive PinOp where
  | digitalWrite (pin : Nat) (high : Bool)
  | delayMicroseconds (us : Nat)
deriving DecidableEq

/-- What one call of `Sensor::update` leaves behind: the object itself (`self`),
the final value of the by-value parameter `slave` (destroyed when the call
returns) and the pin operations issued. -/
structure UpdateResult where
  self : Sensor
  slave : Sensor
  pins : List PinOp
deriving DecidableEq

namespace Sensor

/-- The block `// Read response` of `Sensor::update`, entered when
`start > 0 && end > 0`; it ends with `return`. -/
def read_response (s : Sensor) (now : Nat) : Sensor :=
  let tof := u32_sub s.end_ s.start
  { s with
    measurement :=
      { start := s.start
        tof := u32_sub s.end_ s.start
        timeout := decide (tof > no_response_threshold) }
    has_new_measurement := true
    trigger_at := max (u32_add s.start interval) (u32_add now min_delay)
    triggered := 0
    start := 0
    end_ := 0
    timeout_at := 0 }

/-- The block `// Trigger` of `Sensor::update`. -/
def trigger (s : Sensor) (master : Bool) (slave : Sensor) (now : Nat) : UpdateResult :=
  if s.trigger_at > 0 ∧ now > s.trigger_at ∧ master = true then
    let timeout_at := u32_add now timeout
    let s1 := { s with trigger_at := 0, triggered := now, timeout_at := timeout_at }
    let slave_ready : Bool := decide (slave.trigger_at > 0) && decide (now > slave.trigger_at)
    if slave_ready then
      { self := s1
        slave := { slave with
                   trigger_at := 0
                   triggered := now
                   timeout_at := u32_sub timeout_at min_delay }
        pins := [PinOp.digitalWrite slave.trigger_pin true,
                 PinOp.digitalWrite s.trigger_pin true,
                 PinOp.delayMicroseconds 20,
                 PinOp.digitalWrite s.trigger_pin false,
                 PinOp.digitalWrite slave.trigger_pin false] }
    else
      { self := s1
        slave := slave
        pins := [PinOp.digitalWrite s.trigger_pin true,
                 PinOp.delayMicroseconds 20,
                 PinOp.digitalWrite s.trigger_pin false] }
  else
    { self := s, slave := slave, pins := [] }

/-- The block `// Timeout` of `Sensor::update`. -/
def check_timeout (s : Sensor) (now : Nat) : Sensor :=
  if s.timeout_at > 0 ∧ now > s.timeout_at then
    { s with
      trigger_at := max (u32_add s.triggered interval) (u32_add now min_delay)
      triggered := 0
      start := 0
      end_ := 0
      timeout_at := 0
      measurement := { s.measurement with timeout := true }
      has_new_measurement := true }
  else
    s

/-- The method `Sensor::update(bool master, Sensor slave)`; `now` is the value `micros()`
returns at its first line. -/
def update (s : Sensor) (master : Bool) (slave : Sensor) (now : Nat) : UpdateResult :=
  if s.start > 0 ∧ s.end_ > 0 then
    { self := read_response s now, slave := slave, pins := [] }
  else
    let r := trigger s master slave now
    { r with self := check_timeout r.self now }

end Sensor

/-! ## Events and the send functions -/

/-- The message `openbikesensor_Time`. -/
structure Time where
  seconds : Nat
  nanoseconds : Nat
deriving DecidableEq

/-- Modelled from the spec: the enum `openbikesensor_TextMessage_Type` of
`openbikesensor.pb.h` (the "severity" of a text message); the source names its
value `INFO`, the other values are kept by their number. -/
inductive TextMessage_Type where
  | INFO
  | other (value : Nat)
deriving DecidableEq

/-- Modelled from the spec: the contents of a `UserInput` are three enums of
`openbikesensor.pb.h`; the source uses one value of each
(`OVERTAKER`, `LEFT`, `IMMEDIATE`), the other values are kept by their number. -/
inductive UserInput_Type where
  | OVERTAKER
  | other (value : Nat)
deriving DecidableEq

/-- Modelled from the spec: the enum `openbikesensor_UserInput_Direction`. -/
inductive UserInput_Direction where
  | LEFT
  | other (value : Nat)
deriving DecidableEq

/-- Modelled from the spec: the enum `openbikesensor_UserInput_Timing`. -/
inductive UserInput_Timing where
  | IMMEDIATE
  | other (value : Nat)
deriving DecidableEq

/-- The union `event.content` together with `event.which_content`;
`unset` is `which_content = 0`, what `openbikesensor_Event_init_zero` leaves
(the heartbeat event). -/
inductive Content (K : Type) where
  | unset
  | text_message (type : TextMessage_Type) (text : String)
  | distance_measurement (source_id : Nat) (distance : K) (time_of_flight : Nat)
  | user_input (type : UserInput_Type) (direction : UserInput_Direction)
      (timing : UserInput_Timing)
deriving DecidableEq

/-- The message `openbikesensor_Event`: `time` holds the first `time_count` entries of the
array `event.time`. -/
structure Event (K : Type) where
  time : List Time
  content : Content K
deriving DecidableEq

/-- One call `packetSerial.send(pb_buffer, pb_ostream.bytes_written)`: the event
that was given to `pb_encode`, the status `pb_encode` returned (the source
discards it) and the length passed to `send`. -/
structure Sent (K : Type) where
  event : Event K
  encode_ok : Bool
  bytes_written : Nat
deriving DecidableEq

/-- The library functions the program is linked with: the `sqrt` of `double` and
nanopb's `pb_encode` on the 1024-byte `pb_buffer` (status, bytes written). -/
structure Platform (K : Type) where
  sqrt : K → K
  pb_encode : Event K → Bool × Nat

section Send

variable {K : Type}

/-- The function `send_text_message(message, type)`; `us` is the value of `micros()`. -/
def send_text_message (P : Platform K) (us : Nat) (message : String)
    (type : TextMessage_Type) : Sent K :=
  let cpu_time : Time :=
    { seconds := us / 1000000, nanoseconds := u32_mul (us % 1000000) 1000 }
  let event : Event K :=
    { time := [cpu_time], content := Content.text_message type message }
  let r := P.pb_encode event
  { event := event, encode_ok := r.1, bytes_written := r.2 }

/-- The function `send_distance_measurement(source_id, distance, time_of_flight)`;
`us` is the value of `micros()`. -/
def send_distance_measurement (P : Platform K) (us : Nat) (source_id : Nat)
    (distance : K) (time_of_flight : Nat) : Sent K :=
  let cpu_time : Time :=
    { seconds := us / 1000000, nanoseconds := u32_mul (us % 1000000) 1000 }
  let event : Event K :=
    { time := [cpu_time]
      content := Content.distance_measurement source_id distance time_of_flight }
  let r := P.pb_encode event
  { event := event, encode_ok := r.1, bytes_written := r.2 }

/-- The function `send_button_press()`; `us` is the value of `micros()`. -/
def send_button_press (P : Platform K) (us : Nat) : Sent K :=
  let cpu_time : Time :=
    { seconds := us / 1000000, nanoseconds := u32_mul (us % 1000000) 1000 }
  let event : Event K :=
    { time := [cpu_time]
      content := Content.user_input UserInput_Type.OVERTAKER UserInput_Direction.LEFT
        UserInput_Timing.IMMEDIATE }
  let r := P.pb_encode event
  { event := event, encode_ok := r.1, bytes_written := r.2 }

/-- The function `send_heartbeat()`; `us` is the value of `micros()`. -/
def send_heartbeat (P : Platform K) (us : Nat) : Sent K :=
  let cpu_time : Time :=
    { seconds := us / 1000000, nanoseconds := u32_mul (us % 1000000) 1000 }
  let event : Event K := { time := [cpu_time], content := Content.unset }
  let r := P.pb_encode event
  { event := event, encode_ok := r.1, bytes_written := r.2 }

end Send

/-! ## The main loop -/

/-- The `class Timer`. -/
structure Timer where
  trigger_at : Nat
  delay : Nat
deriving DecidableEq

/-- The method `Timer::start()`; `ms` is the value of `millis()`. -/
def Timer.start (t : Timer) (ms : Nat) : Timer :=
  { t with trigger_at := u32_add ms t.delay }

/-- The method `Timer::check()`; `ms` is the value of `millis()`. -/
def Timer.check (t : Timer) (ms : Nat) : Bool × Timer :=
  if t.trigger_at ≤ ms then (true, { t with trigger_at := 0 }) else (false, t)

/-- The globals `sensors[0]`, `sensors[1]` and `heartbeat`. -/
structure State where
  sensors0 : Sensor
  sensors1 : Sensor
  heartbeat : Timer
deriving DecidableEq

/-- The globals as their initialisers and `setup()` leave them
(`heartbeat.start()` at `millis() = ms`). -/
def State.setup (ms : Nat) : State :=
  { sensors0 := Sensor.new 1 15 4
    sensors1 := Sensor.new 2 25 26
    heartbeat := Timer.start { trigger_at := 0, delay := 1000 } ms }

/-- What one pass of `loop()` reads from outside: every clock value, in the order
of the calls, and the answer of `button.gotPressed()` (the class `Button` of
`utils/button.h` is outside the program text). -/
structure Tick where
  us_update0 : Nat
  us_update1 : Nat
  ms_check : Nat
  us_heartbeat : Nat
  ms_start : Nat
  us_report0 : Nat
  us_report1 : Nat
  gotPressed : Bool
  us_button : Nat
deriving DecidableEq

/-- What one pass of `loop()` does that is visible from outside, in program
order: the calls of `sensors[i].update`, the pin operations and the calls of
`packetSerial.send`. -/
inductive Action (K : Type) where
  | update (i : Nat)
  | pin (op : PinOp)
  | send (p : Sent K)
deriving DecidableEq

section Loop

variable {K : Type} [Field K]

/-- The first `for` of `loop()`: `sensors[i].update(i==0, sensors[1])` for
`i = 0, 1`.  The argument `sensors[1]` is copied into the parameter `slave`;
the copy is dropped when the call returns. -/
def loop_update (st : State) (t : Tick) : State × List (Action K) :=
  let r0 := st.sensors0.update true st.sensors1 t.us_update0
  let st1 := { st with sensors0 := r0.self }
  let r1 := st1.sensors1.update false st1.sensors1 t.us_update1
  let st2 := { st1 with sensors1 := r1.self }
  (st2, Action.update 0 :: r0.pins.map Action.pin
          ++ Action.update 1 :: r1.pins.map Action.pin)

/-- The statement `if (heartbeat.check()) { send_heartbeat(); heartbeat.start(); }`. -/
def loop_heartbeat (P : Platform K) (st : State) (t : Tick) : State × List (Action K) :=
  let c := st.heartbeat.check t.ms_check
  if c.1 then
    ({ st with heartbeat := c.2.start t.ms_start },
      [Action.send (send_heartbeat P t.us_heartbeat)])
  else
    ({ st with heartbeat := c.2 }, [])

/-- The body of the second `for` of `loop()` for one sensor; `us` is the value of
`micros()` inside `send_distance_measurement`. -/
def report (P : Platform K) (sensor : Sensor) (us : Nat) : Sensor × List (Action K) :=
  if sensor.has_new_measurement then
    let measurement := sensor.measurement
    let distance : K :=
      if !measurement.timeout then measurement.get_distance P.sqrt 19.307 else 99.0
    let tof : Nat :=
      if !measurement.timeout then u32_mul measurement.tof 1000 else 10000
    ({ sensor with has_new_measurement := false },
      [Action.send (send_distance_measurement P us sensor.source_id distance tof)])
  else
    (sensor, [])

/-- The second `for` of `loop()`: read all measurements and send them. -/
def loop_report (P : Platform K) (st : State) (t : Tick) : State × List (Action K) :=
  let r0 := report P st.sensors0 t.us_report0
  let r1 := report P st.sensors1 t.us_report1
  ({ st with sensors0 := r0.1, sensors1 := r1.1 }, r0.2 ++ r1.2)

/-- The statements `button.handle(); if (button.gotPressed()) send_button_press();`. -/
def loop_button (P : Platform K) (t : Tick) : List (Action K) :=
  if t.gotPressed then [Action.send (send_button_press P t.us_button)] else []

/-- One pass of `loop()`.  (`packetSerial.update()`, its last statement, reads
the serial input and touches none of the state modelled here.) -/
def loop (P : Platform K) (st : State) (t : Tick) : State × List (Action K) :=
  let a := loop_update st t
  let b := loop_heartbeat P a.1 t
  let c := loop_report P b.1 t
  (c.1, a.2 ++ b.2 ++ c.2 ++ loop_button P t)

end Loop

/-! ## Concrete values used to instantiate the theorems -/

/-- A platform over the rationals: `Rat.sqrt` for `sqrt`, an encoder that always
succeeds with 16 bytes. -/
def demo_platform : Platform ℚ :=
  { sqrt := Rat.sqrt, pb_encode := fun _ => (true, 16) }

/-- The sensor `sensors[0]` with the edge timestamps `rise`, `fall` captured. -/
def demo_echo (rise fall : Nat) : Sensor :=
  { Sensor.new 1 15 4 with start := rise, end_ := fall }

/-- The sensor `sensors[0]` armed at time `T`, as the block `// Trigger` leaves it. -/
def demo_armed (T : Nat) : Sensor :=
  { Sensor.new 1 15 4 with trigger_at := 0, triggered := T, timeout_at := u32_add T 50000 }

/-! ## The invariant of the data model and the reachable sensor states -/

/-- The invariant "at most one of `trigger_at > 0`, `triggered > 0` holds": a sensor is waiting to
be triggered or waiting for its echo, never both. -/
def Sensor.exclusive (s : Sensor) : Prop :=
  ¬ (s.trigger_at > 0 ∧ s.triggered > 0)

instance (s : Sensor) : Decidable s.exclusive := by
  unfold Sensor.exclusive
  infer_instance

/-- The states a `Sensor` object can be in: it is constructed, and from then on
written by calls of `update` (any `master`, `slave` and clock value), by its
interrupt handler `echo` (any pin level and clock value), and by `loop()` when it
clears `has_new_measurement`. -/
inductive Sensor.Reachable : Sensor → Prop where
  | new (source_id_ _trigger_pin _echo_pin : Nat) :
      Sensor.Reachable (Sensor.new source_id_ _trigger_pin _echo_pin)
  | update (s : Sensor) (master : Bool) (slave : Sensor) (now : Nat) :
      Sensor.Reachable s → Sensor.Reachable (s.update master slave now).self
  | echo (s : Sensor) (level : Bool) (us : Nat) :
      Sensor.Reachable s → Sensor.Reachable (s.echo level us)
  | read (s : Sensor) :
      Sensor.Reachable s → Sensor.Reachable { s with has_new_measurement := false }

/-- The states of the globals reachable from `setup()`: the statements of
`loop()` that write them, one at a time (`sensors[0].update(true, sensors[1])`,
`sensors[1].update(false, sensors[1])`, the heartbeat statement, the clearing of
`has_new_measurement` for either sensor), and the two interrupt handlers, in any
order and with any clock values.  Every sequence of passes of `loop()` with
interrupts between its statements is such a sequence. -/
inductive State.Reachable : State → Prop where
  | setup (ms : Nat) : State.Reachable (State.setup ms)
  | update0 (st : State) (now : Nat) : State.Reachable st →
      State.Reachable { st with sensors0 := (st.sensors0.update true st.sensors1 now).self }
  | update1 (st : State) (now : Nat) : State.Reachable st →
      State.Reachable { st with sensors1 := (st.sensors1.update false st.sensors1 now).self }
  | heartbeat (st : State) (ms_check ms_start : Nat) : State.Reachable st →
      State.Reachable
        { st with
          heartbeat :=
            if (st.heartbeat.check ms_check).1 then
              (st.heartbeat.check ms_check).2.start ms_start
            else (st.heartbeat.check ms_check).2 }
  | read0 (st : State) : State.Reachable st →
      State.Reachable { st with sensors0 := { st.sensors0 with has_new_measurement := false } }
  | read1 (st : State) : State.Reachable st →
      State.Reachable { st with sensors1 := { st.sensors1 with has_new_measurement := false } }
  | interrupt_sensor0 (st : State) (level : Bool) (us : Nat) : State.Reachable st →
      State.Reachable { st with sensors0 := st.sensors0.echo level us }
  | interrupt_sensor1 (st : State) (level : Bool) (us : Nat) : State.Reachable st →
      State.Reachable { st with sensors1 := st.sensors1.echo level us }

/-! ## Reading the log of a pass -/

/-- The action is a `packetSerial.send` of a distance event whose `source_id`
is `id`. -/
def Action.is_distance_from {K : Type} (id : Nat) : Action K → Bool
  | Action.send p =>
    match p.event.content with
    | Content.distance_measurement source_id _ _ => decide (source_id = id)
    | _ => false
  | _ => false

/-- The action is a call of `update`. -/
def Action.is_update {K : Type} : Action K → Bool
  | Action.update _ => true
  | _ => false

/-- The action is a call of `packetSerial.send`. -/
def Action.is_send {K : Type} : Action K → Bool
  | Action.send _ => true
  | _ => false

/-- The action sends a distance-measurement event. -/
def Action.is_distance {K : Type} : Action K → Bool
  | Action.send p =>
    match p.event.content with
    | Content.distance_measurement _ _ _ => true
    | _ => false
  | _ => false

/-- The action sends a heartbeat event (an event without content). -/
def Action.is_heartbeat {K : Type} : Action K → Bool
  | Action.send p =>
    match p.event.content with
    | Content.unset => true
    | _ => false
  | _ => false

/-- The action sends a user-input (button) event. -/
def Action.is_user_input {K : Type} : Action K → Bool
  | Action.send p =>
    match p.event.content with
    | Content.user_input _ _ _ => true
    | _ => false
  | _ => false

/-- The place of an action in a pass of `loop()`: 0 for the update calls and their
pin operations, 1 for the heartbeat event, 2 for a distance event, 3 for the
button event (4 for a text message, which `loop()` never sends). -/
def Action.phase {K : Type} : Action K → Nat
  | Action.update _ => 0
  | Action.pin _ => 0
  | Action.send p =>
    match p.event.content with
    | Content.unset => 1
    | Content.distance_measurement _ _ _ => 2
    | Content.user_input _ _ _ => 3
    | Content.text_message _ _ => 4

/-- The globals one second after `setup()` ran at `millis() = 0`: the heartbeat
timer still set to 1000 ms, `sensors[0]` armed at 990000 µs with the echo
`(990400, 990900)` captured, `sensors[1]` as constructed. -/
def demo_state : State :=
  { State.setup 0 with
    sensors0 := { demo_armed 990000 with start := 990400, end_ := 990900 } }

/-- The clock values of a pass running at about one second (`millis() = 1000`),
the button not pressed. -/
def demo_tick : Tick :=
  { us_update0 := 1000000
    us_update1 := 1000010
    ms_check := 1000
    us_heartbeat := 1000020
    ms_start := 1000
    us_report0 := 1000100
    us_report1 := 1000200
    gotPressed := false
    us_button := 1000300 }

/-- The frame handed to `packetSerial.send` by an action, if it is a send. -/
def Action.sent {K : Type} : Action K → Option (Sent K)
  | Action.send p => some p
  | _ => none

/-- A platform over the rationals whose encoder always fails, 1000 bytes into the
buffer (`pb_encode` returns `false`). -/
def demo_failing_platform : Platform ℚ :=
  { sqrt := Rat.sqrt, pb_encode := fun _ => (false, 1000) }

/-! ## Auxiliary facts -/

/-- A `uint32_t` sum that fits 32 bits is the plain sum. -/
theorem u32_add_of_lt {a b : Nat} (h : a + b < 4294967296) : u32_add a b = a + b := by
  unfold u32_add
  omega

/-- A `uint32_t` difference `a - b` with `b ≤ a` is the plain difference. -/
theorem u32_sub_of_le {a b : Nat} (h : b ≤ a) (ha : a < 4294967296) :
    u32_sub a b = a - b := by
  unfold u32_sub
  omega

/-- The `uint32_t` difference of a value and itself is 0. -/
theorem u32_sub_self (a : Nat) : u32_sub a a = 0 := by
  unfold u32_sub
  omega

/-- Zero times anything is zero on `uint32_t`. -/
theorem u32_mul_zero_left (b : Nat) : u32_mul 0 b = 0 := by
  simp [u32_mul]

/-- With both edge timestamps present, `update` is the block `// Read response`. -/
theorem Sensor.update_of_echo (s : Sensor) (master : Bool) (slave : Sensor) (now : Nat)
    (hs : 0 < s.start) (he : 0 < s.end_) :
    s.update master slave now
      = { self := s.read_response now, slave := slave, pins := [] } := by
  unfold Sensor.update
  rw [if_pos ⟨hs, he⟩]

/-- Without a complete echo, `update` is the block `// Trigger` followed by the
block `// Timeout`. -/
theorem Sensor.update_of_no_echo (s : Sensor) (master : Bool) (slave : Sensor) (now : Nat)
    (h : s.start = 0 ∨ s.end_ = 0) :
    s.update master slave now
      = { s.trigger master slave now with
          self := (s.trigger master slave now).self.check_timeout now } := by
  unfold Sensor.update
  rw [if_neg (by omega)]

/-- A sensor whose `trigger_at` is 0 does not take the block `// Trigger`. -/
theorem Sensor.trigger_of_trigger_at_zero (s : Sensor) (master : Bool) (slave : Sensor)
    (now : Nat) (h : s.trigger_at = 0) :
    s.trigger master slave now = { self := s, slave := slave, pins := [] } := by
  unfold Sensor.trigger
  rw [if_neg (by omega)]

/-! ## C1 – C3: the echo and the timeout exits -/

/-- C1. For a sensor state with `start > 0`, `end > 0` and `end ≥ start` (`end` a
`uint32_t`), one call of `Sensor::update`, whatever `now`, `master` and `slave`,
leaves `measurement.tof = end - start`, `measurement.start = start` and
`has_new_measurement = true`. -/
theorem C1_update_measures_echo (s : Sensor) (master : Bool) (slave : Sensor) (now : Nat)
    (hstart : 0 < s.start) (hend : 0 < s.end_) (hle : s.start ≤ s.end_)
    (hrange : s.end_ < 4294967296) :
    (s.update master slave now).self.measurement.tof = s.end_ - s.start ∧
    (s.update master slave now).self.measurement.start = s.start ∧
    (s.update master slave now).self.has_new_measurement = true := by
  rw [Sensor.update_of_echo s master slave now hstart hend]
  refine ⟨?_, rfl, rfl⟩
  exact u32_sub_of_le hle hrange

/-- C1 at the echo `start = 1000`, `end = 1500` of sensor 1, `now = 2000`. -/
theorem C1_update_measures_echo_witness :
    (({ Sensor.new 1 15 4 with start := 1000, end_ := 1500 } : Sensor).update true
        (Sensor.new 2 25 26) 2000).self.measurement.tof = 1500 - 1000 ∧
    (({ Sensor.new 1 15 4 with start := 1000, end_ := 1500 } : Sensor).update true
        (Sensor.new 2 25 26) 2000).self.measurement.start = 1000 ∧
    (({ Sensor.new 1 15 4 with start := 1000, end_ := 1500 } : Sensor).update true
        (Sensor.new 2 25 26) 2000).self.has_new_measurement = true :=
  C1_update_measures_echo { Sensor.new 1 15 4 with start := 1000, end_ := 1500 } true
    (Sensor.new 2 25 26) 2000 (by decide) (by decide) (by decide) (by decide)

/-- What `loop()` sends for `sensors[0]` is what `report` sends for the value
`sensors[0]` has after its `update` call of the same pass. -/
theorem loop_mem_of_report0 {K : Type} [Field K] (P : Platform K) (st : State) (t : Tick)
    (a : Action K)
    (h : a ∈ (report P (st.sensors0.update true st.sensors1 t.us_update0).self
                t.us_report0).2) :
    a ∈ (loop P st t).2 := by
  unfold loop loop_report loop_heartbeat loop_update
  by_cases hc : (st.heartbeat.check t.ms_check).1 = true
  · simp only [hc, if_true, List.mem_append]
    exact Or.inl (Or.inr (Or.inl h))
  · simp only [hc, List.mem_append]
    exact Or.inl (Or.inr (Or.inl h))

/-- What `loop()` sends for `sensors[1]` is what `report` sends for the value
`sensors[1]` has after its `update` call of the same pass. -/
theorem loop_mem_of_report1 {K : Type} [Field K] (P : Platform K) (st : State) (t : Tick)
    (a : Action K)
    (h : a ∈ (report P (st.sensors1.update false st.sensors1 t.us_update1).self
                t.us_report1).2) :
    a ∈ (loop P st t).2 := by
  unfold loop loop_report loop_heartbeat loop_update
  by_cases hc : (st.heartbeat.check t.ms_check).1 = true
  · simp only [hc, if_true, List.mem_append]
    exact Or.inl (Or.inr (Or.inr h))
  · simp only [hc, List.mem_append]
    exact Or.inl (Or.inr (Or.inr h))

/-- The report of a sensor that has just read an echo with `start = end`:
one distance event with distance 0 and time of flight 0. -/
theorem report_read_response_zero {K : Type} [Field K] (P : Platform K) (s : Sensor)
    (now us : Nat) (h : s.start = s.end_) :
    (report P (s.read_response now) us).2
      = [Action.send (send_distance_measurement P us s.source_id 0 0)] := by
  simp [report, Sensor.read_response, h, u32_sub_self, u32_mul_zero_left,
    SensorMeasurement.get_distance, Sensor.no_response_threshold]

/-- C2. With both edge timestamps present (`start > 0`, `end > 0`),
`Sensor::update` sets `measurement.timeout` exactly when the `uint32_t`
difference `end - start` exceeds 35000 (for `end ≥ start` that is the plain
difference).  An echo with `start = end` gives `tof = 0`, `timeout = false`, and
the main loop sends for it a distance event with distance 0 and time of flight 0,
which is not the sentinel pair 99.0 / 10000. -/
theorem C2_timeout_iff_above_threshold {K : Type} [Field K] [CharZero K]
    (P : Platform K) (s : Sensor) (master : Bool) (slave : Sensor) (now : Nat)
    (hstart : 0 < s.start) (hend : 0 < s.end_) :
    ((s.update master slave now).self.measurement.timeout = true
        ↔ u32_sub s.end_ s.start > 35000) ∧
    (s.start ≤ s.end_ → s.end_ < 4294967296 →
      ((s.update master slave now).self.measurement.timeout = true
        ↔ s.end_ - s.start > 35000)) ∧
    (s.start = s.end_ →
      (s.update master slave now).self.measurement.tof = 0 ∧
      (s.update master slave now).self.measurement.timeout = false ∧
      (∀ us : Nat, (report P (s.update master slave now).self us).2
          = [Action.send (send_distance_measurement P us s.source_id 0 0)]) ∧
      (∀ (st : State) (t : Tick), st.sensors0 = s →
          Action.send (send_distance_measurement P t.us_report0 s.source_id 0 0)
            ∈ (loop P st t).2) ∧
      (∀ (st : State) (t : Tick), st.sensors1 = s →
          Action.send (send_distance_measurement P t.us_report1 s.source_id 0 0)
            ∈ (loop P st t).2) ∧
      (0 : K) ≠ 99.0 ∧ (0 : Nat) ≠ 10000) := by
  rw [Sensor.update_of_echo s master slave now hstart hend]
  refine ⟨?_, ?_, ?_⟩
  · simp [Sensor.read_response, Sensor.no_response_threshold]
  · intro hle hr
    simp [Sensor.read_response, Sensor.no_response_threshold, u32_sub_of_le hle hr]
  · intro heq
    refine ⟨?_, ?_, ?_, ?_, ?_, ?_, ?_⟩
    · simp [Sensor.read_response, heq, u32_sub_self]
    · simp [Sensor.read_response, heq, u32_sub_self, Sensor.no_response_threshold]
    · intro us
      exact report_read_response_zero P s now us heq
    · intro st t hst
      apply loop_mem_of_report0
      rw [hst, Sensor.update_of_echo s true st.sensors1 t.us_update0 hstart hend,
        report_read_response_zero P s t.us_update0 t.us_report0 heq]
      exact List.mem_singleton_self _
    · intro st t hst
      apply loop_mem_of_report1
      rw [hst, Sensor.update_of_echo s false s t.us_update1 hstart hend,
        report_read_response_zero P s t.us_update1 t.us_report1 heq]
      exact List.mem_singleton_self _
    · norm_num
    · decide

/-- C2 at the echoes `(1000, 40000)` (39 ms wide: a timeout) and `(1000, 1000)`
(zero time of flight: a reading). -/
theorem C2_timeout_iff_above_threshold_witness :
    ((demo_echo 1000 40000).update true (Sensor.new 2 25 26) 41000).self.measurement.timeout
      = true ∧
    ((demo_echo 1000 1000).update true (Sensor.new 2 25 26) 41000).self.measurement.timeout
      = false :=
  ⟨(C2_timeout_iff_above_threshold demo_platform (demo_echo 1000 40000) true
      (Sensor.new 2 25 26) 41000 (by decide) (by decide)).1.mpr (by decide),
   ((C2_timeout_iff_above_threshold demo_platform (demo_echo 1000 1000) true
      (Sensor.new 2 25 26) 41000 (by decide) (by decide)).2.2 rfl).2.1⟩

/-- C3. For an armed sensor (`trigger_at = 0`, `timeout_at > 0`) without a complete
echo (`start = 0` or `end = 0`) and any clock value `now`:
if `now > timeout_at`, `Sensor::update` sets `measurement.timeout` and
`has_new_measurement`, sets `trigger_at = max(triggered + 40000, now + 5000)` (the
`uint32_t` sums of the source, which are the plain sums when they fit 32 bits) and
resets `triggered` and `timeout_at`; if `now ≤ timeout_at` the call changes
nothing and issues no pin operation.  So with `timeout_at = T + 50000` nothing
happens at `now = T + 50000` and the timeout measurement appears at
`now = T + 50001`. -/
theorem C3_timeout_exit (s : Sensor) (master : Bool) (slave : Sensor) (now : Nat)
    (harmed : s.trigger_at = 0) (hset : 0 < s.timeout_at)
    (hecho : s.start = 0 ∨ s.end_ = 0) :
    (now > s.timeout_at →
      (s.update master slave now).self.measurement.timeout = true ∧
      (s.update master slave now).self.has_new_measurement = true ∧
      (s.update master slave now).self.trigger_at
        = max (u32_add s.triggered 40000) (u32_add now 5000) ∧
      (s.triggered + 40000 < 4294967296 → now + 5000 < 4294967296 →
        (s.update master slave now).self.trigger_at
          = max (s.triggered + 40000) (now + 5000)) ∧
      (s.update master slave now).self.triggered = 0 ∧
      (s.update master slave now).self.timeout_at = 0) ∧
    (now ≤ s.timeout_at →
      s.update master slave now = { self := s, slave := slave, pins := [] }) ∧
    (∀ T : Nat, s.timeout_at = T + 50000 →
      (s.update master slave (T + 50000)).self = s ∧
      (s.update master slave (T + 50001)).self.measurement.timeout = true ∧
      (s.update master slave (T + 50001)).self.has_new_measurement = true) := by
  have hupd : ∀ n : Nat, s.update master slave n
      = { self := s.check_timeout n, slave := slave, pins := [] } := by
    intro n
    rw [Sensor.update_of_no_echo s master slave n hecho,
      Sensor.trigger_of_trigger_at_zero s master slave n harmed]
  have hfire : ∀ n : Nat, n > s.timeout_at → s.check_timeout n =
      { s with
        trigger_at := max (u32_add s.triggered Sensor.interval) (u32_add n Sensor.min_delay)
        triggered := 0
        start := 0
        end_ := 0
        timeout_at := 0
        measurement := { s.measurement with timeout := true }
        has_new_measurement := true } := by
    intro n hn
    unfold Sensor.check_timeout
    rw [if_pos ⟨hset, hn⟩]
  have hidle : ∀ n : Nat, n ≤ s.timeout_at → s.check_timeout n = s := by
    intro n hn
    unfold Sensor.check_timeout
    rw [if_neg (by omega)]
  refine ⟨?_, ?_, ?_⟩
  · intro hnow
    rw [hupd now, hfire now hnow]
    refine ⟨rfl, rfl, rfl, ?_, rfl, rfl⟩
    intro h1 h2
    show max (u32_add s.triggered Sensor.interval) (u32_add now Sensor.min_delay) = _
    rw [Sensor.interval, Sensor.min_delay, u32_add_of_lt h1, u32_add_of_lt h2]
  · intro hnow
    rw [hupd now, hidle now hnow]
  · intro T hT
    rw [hupd (T + 50000), hupd (T + 50001), hidle (T + 50000) (by omega),
      hfire (T + 50001) (by omega)]
    exact ⟨rfl, rfl, rfl⟩

/-- C3 for the sensor armed at `T = 1000`: nothing at `now = 51000`, the timeout
measurement at `now = 51001`. -/
theorem C3_timeout_exit_witness :
    ((demo_armed 1000).update true (Sensor.new 2 25 26) 51000).self = demo_armed 1000 ∧
    ((demo_armed 1000).update true (Sensor.new 2 25 26) 51001).self.measurement.timeout
      = true ∧
    ((demo_armed 1000).update true (Sensor.new 2 25 26) 51001).self.has_new_measurement
      = true :=
  (C3_timeout_exit (demo_armed 1000) true (Sensor.new 2 25 26) 51001 rfl (by decide)
    (Or.inl rfl)).2.2 1000 (by decide)

/-! ## C4: the sentinel event of a timed-out measurement -/

/-- The heartbeat statement leaves the sensors alone. -/
theorem loop_heartbeat_sensors {K : Type} [Field K] (P : Platform K) (st : State) (t : Tick) :
    (loop_heartbeat P st t).1.sensors0 = st.sensors0 ∧
    (loop_heartbeat P st t).1.sensors1 = st.sensors1 := by
  by_cases hc : (st.heartbeat.check t.ms_check).1 = true <;> simp [loop_heartbeat, hc]

/-- The log of one pass of `loop()`, phase by phase. -/
theorem loop_log {K : Type} [Field K] (P : Platform K) (st : State) (t : Tick) :
    (loop P st t).2
      = (@loop_update K st t).2
        ++ (loop_heartbeat P (@loop_update K st t).1 t).2
        ++ ((report P (@loop_update K st t).1.sensors0 t.us_report0).2
            ++ (report P (@loop_update K st t).1.sensors1 t.us_report1).2)
        ++ loop_button P t := by
  simp only [loop, loop_report, (loop_heartbeat_sensors P (@loop_update K st t).1 t).1,
    (loop_heartbeat_sensors P (@loop_update K st t).1 t).2]

/-- The sensors after one pass of `loop()`. -/
theorem loop_sensors {K : Type} [Field K] (P : Platform K) (st : State) (t : Tick) :
    (loop P st t).1.sensors0 = (report P (@loop_update K st t).1.sensors0 t.us_report0).1 ∧
    (loop P st t).1.sensors1 = (report P (@loop_update K st t).1.sensors1 t.us_report1).1 := by
  simp only [loop, loop_report, (loop_heartbeat_sensors P (@loop_update K st t).1 t).1,
    (loop_heartbeat_sensors P (@loop_update K st t).1 t).2, and_self]

/-- No distance event is sent during the update phase. -/
theorem loop_update_no_distance {K : Type} (st : State) (t : Tick) (id : Nat) :
    (@loop_update K st t).2.filter (Action.is_distance_from id) = [] := by
  simp [loop_update, List.filter_eq_nil_iff, Action.is_distance_from]

/-- The heartbeat event is not a distance event. -/
theorem loop_heartbeat_no_distance {K : Type} [Field K] (P : Platform K) (st : State)
    (t : Tick) (id : Nat) :
    (loop_heartbeat P st t).2.filter (Action.is_distance_from id) = [] := by
  by_cases hc : (st.heartbeat.check t.ms_check).1 = true <;>
    simp [loop_heartbeat, hc, Action.is_distance_from, send_heartbeat]

/-- The button event is not a distance event. -/
theorem loop_button_no_distance {K : Type} [Field K] (P : Platform K) (t : Tick) (id : Nat) :
    (loop_button P t).filter (Action.is_distance_from id) = [] := by
  unfold loop_button
  split <;> simp [Action.is_distance_from, send_button_press]

/-- The report of a sensor sends no distance event under another `source_id`. -/
theorem report_no_distance_from_other {K : Type} [Field K] (P : Platform K) (sensor : Sensor)
    (us id : Nat) (h : sensor.source_id ≠ id) :
    (report P sensor us).2.filter (Action.is_distance_from id) = [] := by
  unfold report
  split <;> simp [Action.is_distance_from, send_distance_measurement, h]

/-- The report of a sensor without a new measurement sends nothing. -/
theorem report_idle {K : Type} [Field K] (P : Platform K) (sensor : Sensor) (us : Nat)
    (hnew : sensor.has_new_measurement = false) :
    report P sensor us = (sensor, []) := by
  unfold report
  rw [if_neg (by simp [hnew])]

/-- The report of a sensor holding a timed-out measurement. -/
theorem report_timeout {K : Type} [Field K] (P : Platform K) (sensor : Sensor) (us : Nat)
    (hnew : sensor.has_new_measurement = true) (hto : sensor.measurement.timeout = true) :
    report P sensor us
      = ({ sensor with has_new_measurement := false },
         [Action.send (send_distance_measurement P us sensor.source_id 99.0 10000)]) := by
  simp [report, hnew, hto]

/-- C4. A sensor with `has_new_measurement` set and `measurement.timeout = true`
(whatever `measurement.tof` and `measurement.start` are) when `loop()` reads the
measurements: the pass sends exactly one distance event for it, with its
`source_id`, distance 99.0 and time of flight 10000, and clears
`has_new_measurement`; reading it again sends nothing, and the following pass
sends nothing for it unless its `update` call sets `has_new_measurement` anew.
Stated for the reading step (`report`) and for the whole pass, for `sensors[0]`
and for `sensors[1]` (the two `source_id`s being different, as they are in the
program). -/
theorem C4_timeout_sentinel {K : Type} [Field K] (P : Platform K) (sensor : Sensor)
    (hnew : sensor.has_new_measurement = true) (hto : sensor.measurement.timeout = true) :
    (∀ us : Nat,
      report P sensor us
        = ({ sensor with has_new_measurement := false },
           [Action.send (send_distance_measurement P us sensor.source_id 99.0 10000)]) ∧
      (send_distance_measurement P us sensor.source_id 99.0 10000).event.content
        = Content.distance_measurement sensor.source_id 99.0 10000 ∧
      ∀ us2 : Nat, report P (report P sensor us).1 us2 = ((report P sensor us).1, [])) ∧
    (∀ (st : State) (t : Tick), (@loop_update K st t).1.sensors0 = sensor →
      (@loop_update K st t).1.sensors1.source_id ≠ sensor.source_id →
      (loop P st t).2.filter (Action.is_distance_from sensor.source_id)
        = [Action.send
            (send_distance_measurement P t.us_report0 sensor.source_id 99.0 10000)] ∧
      (loop P st t).1.sensors0.has_new_measurement = false) ∧
    (∀ (st : State) (t : Tick), (@loop_update K st t).1.sensors1 = sensor →
      (@loop_update K st t).1.sensors0.source_id ≠ sensor.source_id →
      (loop P st t).2.filter (Action.is_distance_from sensor.source_id)
        = [Action.send
            (send_distance_measurement P t.us_report1 sensor.source_id 99.0 10000)] ∧
      (loop P st t).1.sensors1.has_new_measurement = false) ∧
    (∀ (us : Nat) (master : Bool) (slave : Sensor) (now us2 : Nat),
      ((report P sensor us).1.update master slave now).self.has_new_measurement = false →
      (report P ((report P sensor us).1.update master slave now).self us2).2 = []) := by
  have hself : ∀ us : Nat,
      [Action.send (send_distance_measurement P us sensor.source_id 99.0 10000)].filter
        (Action.is_distance_from sensor.source_id)
      = [Action.send (send_distance_measurement P us sensor.source_id 99.0 10000)] := by
    intro us
    simp [Action.is_distance_from, send_distance_measurement]
  refine ⟨?_, ?_, ?_, ?_⟩
  · intro us
    refine ⟨report_timeout P sensor us hnew hto, rfl, ?_⟩
    intro us2
    rw [report_timeout P sensor us hnew hto]
    simp [report]
  · intro st t h0 h1
    constructor
    · rw [loop_log, List.filter_append, List.filter_append, List.filter_append,
        List.filter_append, loop_update_no_distance, loop_heartbeat_no_distance,
        loop_button_no_distance, report_no_distance_from_other P _ _ _ h1, h0,
        report_timeout P sensor _ hnew hto, hself]
      rfl
    · rw [(loop_sensors P st t).1, h0, report_timeout P sensor _ hnew hto]
  · intro st t h1 h0
    constructor
    · rw [loop_log, List.filter_append, List.filter_append, List.filter_append,
        List.filter_append, loop_update_no_distance, loop_heartbeat_no_distance,
        loop_button_no_distance, report_no_distance_from_other P _ _ _ h0, h1,
        report_timeout P sensor _ hnew hto, hself]
      rfl
    · rw [(loop_sensors P st t).2, h1, report_timeout P sensor _ hnew hto]
  · intro us master slave now us2 hflag
    rw [report_idle P _ us2 hflag]

/-- C4 for the sensor that has just timed out (armed at 1000, `update` at 51001),
read at `micros() = 51010`. -/
theorem C4_timeout_sentinel_witness :
    report demo_platform
        ((demo_armed 1000).update true (Sensor.new 2 25 26) 51001).self 51010
      = ({ ((demo_armed 1000).update true (Sensor.new 2 25 26) 51001).self with
             has_new_measurement := false },
         [Action.send (send_distance_measurement demo_platform 51010
            ((demo_armed 1000).update true (Sensor.new 2 25 26) 51001).self.source_id
            99.0 10000)]) :=
  ((C4_timeout_sentinel demo_platform
      ((demo_armed 1000).update true (Sensor.new 2 25 26) 51001).self
      (by decide) (by decide)).1 51010).1

/-! ## C5: the slave is a copy -/

/-- C5 (what the code does). The first pass after `setup()`, with `micros() = 2` in
`sensors[0].update(true, sensors[1])`: the master takes the block `// Trigger`,
the slave is eligible (`trigger_at = 1 < 2`), both trigger pins are pulsed, the
master gets `timeout_at = 50002` and the parameter `slave` gets
`trigger_at = 0`, `triggered = 2`, `timeout_at = 45002`.  That parameter is a
copy: `sensors[1]` itself still has `trigger_at = 1`, `triggered = 0`,
`timeout_at = 0` after the call, and after the whole update phase of the pass. -/
theorem C5_slave_state_not_written :
    ((State.setup 0).sensors0.update true (State.setup 0).sensors1 2).self.timeout_at
      = 50002 ∧
    ((State.setup 0).sensors0.update true (State.setup 0).sensors1 2).slave.trigger_at = 0 ∧
    ((State.setup 0).sensors0.update true (State.setup 0).sensors1 2).slave.triggered = 2 ∧
    ((State.setup 0).sensors0.update true (State.setup 0).sensors1 2).slave.timeout_at
      = 45002 ∧
    ((State.setup 0).sensors0.update true (State.setup 0).sensors1 2).pins
      = [PinOp.digitalWrite 25 true, PinOp.digitalWrite 15 true, PinOp.delayMicroseconds 20,
         PinOp.digitalWrite 15 false, PinOp.digitalWrite 25 false] ∧
    (∀ t : Tick, t.us_update0 = 2 →
      (@loop_update ℚ (State.setup 0) t).1.sensors0.timeout_at = 50002 ∧
      (@loop_update ℚ (State.setup 0) t).1.sensors1.trigger_at = 1 ∧
      (@loop_update ℚ (State.setup 0) t).1.sensors1.triggered = 0 ∧
      (@loop_update ℚ (State.setup 0) t).1.sensors1.timeout_at = 0) := by
  refine ⟨by decide, by decide, by decide, by decide, by decide, ?_⟩
  intro t ht
  simp [loop_update, ht, State.setup, Sensor.update, Sensor.new, Sensor.trigger,
    Sensor.check_timeout, Sensor.timeout, u32_add]

/-! ## C6 – C8: invariant, no double trigger, the echo exit -/

/-- The method `update` keeps the invariant `exclusive`. -/
theorem Sensor.update_exclusive (s : Sensor) (master : Bool) (slave : Sensor) (now : Nat)
    (h : s.exclusive) : (s.update master slave now).self.exclusive := by
  unfold Sensor.exclusive at h ⊢
  unfold Sensor.update
  by_cases he : s.start > 0 ∧ s.end_ > 0
  · rw [if_pos he]
    simp [Sensor.read_response]
  · rw [if_neg he]
    by_cases ht : s.trigger_at > 0 ∧ now > s.trigger_at ∧ master = true
    · by_cases hr : (decide (slave.trigger_at > 0) && decide (now > slave.trigger_at)) = true
      · by_cases hc : u32_add now Sensor.timeout > 0 ∧ now > u32_add now Sensor.timeout
        · simp [Sensor.trigger, if_pos ht, hr, Sensor.check_timeout, hc]
        · simp [Sensor.trigger, if_pos ht, hr, Sensor.check_timeout, hc]
      · by_cases hc : u32_add now Sensor.timeout > 0 ∧ now > u32_add now Sensor.timeout
        · simp [Sensor.trigger, if_pos ht, hr, Sensor.check_timeout, hc]
        · simp [Sensor.trigger, if_pos ht, hr, Sensor.check_timeout, hc]
    · by_cases hc : s.timeout_at > 0 ∧ now > s.timeout_at
      · simp [Sensor.trigger, if_neg ht, Sensor.check_timeout, hc]
      · simp only [Sensor.trigger, if_neg ht, Sensor.check_timeout, if_neg hc]
        exact h

/-- The interrupt handler `echo` keeps the invariant `exclusive`. -/
theorem Sensor.echo_exclusive (s : Sensor) (level : Bool) (us : Nat) (h : s.exclusive) :
    (s.echo level us).exclusive := by
  unfold Sensor.exclusive at h ⊢
  unfold Sensor.echo
  cases level <;> exact h

/-- C6. `¬ (trigger_at > 0 ∧ triggered > 0)` holds for a freshly constructed
`Sensor`, is kept by every call of `Sensor::update` (every `master`, `slave` and
clock value) and by every call of the interrupt handler `echo()`, hence holds in
every reachable sensor state. -/
theorem C6_exclusive_invariant :
    (∀ source_id_ _trigger_pin _echo_pin : Nat,
      (Sensor.new source_id_ _trigger_pin _echo_pin).trigger_at = 1 ∧
      (Sensor.new source_id_ _trigger_pin _echo_pin).triggered = 0 ∧
      (Sensor.new source_id_ _trigger_pin _echo_pin).exclusive) ∧
    (∀ (s : Sensor) (master : Bool) (slave : Sensor) (now : Nat),
      s.exclusive → (s.update master slave now).self.exclusive) ∧
    (∀ (s : Sensor) (level : Bool) (us : Nat), s.exclusive → (s.echo level us).exclusive) ∧
    (∀ s : Sensor, Sensor.Reachable s → ¬ (s.trigger_at > 0 ∧ s.triggered > 0)) := by
  have hnew : ∀ a b c : Nat, (Sensor.new a b c).exclusive := by
    intro a b c
    simp [Sensor.exclusive, Sensor.new]
  refine ⟨fun a b c => ⟨rfl, rfl, hnew a b c⟩, Sensor.update_exclusive,
    Sensor.echo_exclusive, ?_⟩
  intro s hs
  induction hs with
  | new a b c => exact hnew a b c
  | update s master slave now _ ih => exact Sensor.update_exclusive s master slave now ih
  | echo s level us _ ih => exact Sensor.echo_exclusive s level us ih
  | read s _ ih => exact ih

/-- A call of `update` that leaves `triggered` at a new non-zero value, or issues a
pin operation, took the block `// Trigger`. -/
theorem Sensor.update_arms_only_when_due (s : Sensor) (master : Bool) (slave : Sensor)
    (now : Nat)
    (h : ((s.update master slave now).self.triggered ≠ s.triggered ∧
          (s.update master slave now).self.triggered ≠ 0) ∨
         ((s.update master slave now).self.timeout_at ≠ s.timeout_at ∧
          (s.update master slave now).self.timeout_at ≠ 0) ∨
         (s.update master slave now).pins ≠ []) :
    s.trigger_at > 0 ∧ now > s.trigger_at ∧ master = true := by
  by_contra hnot
  unfold Sensor.update at h
  by_cases he : s.start > 0 ∧ s.end_ > 0
  · rw [if_pos he] at h
    simp [Sensor.read_response] at h
  · rw [if_neg he] at h
    by_cases hc : s.timeout_at > 0 ∧ now > s.timeout_at
    · simp [Sensor.trigger, if_neg hnot, Sensor.check_timeout, hc] at h
    · simp [Sensor.trigger, if_neg hnot, Sensor.check_timeout, hc] at h

/-- C7. A call of `Sensor::update` on an armed sensor (`trigger_at = 0`,
`triggered > 0`) never re-arms it: `triggered` is afterwards unchanged or 0,
`timeout_at` is unchanged or 0, and no trigger pulse is issued.  For any state, a
call that arms the sensor (`triggered` or `timeout_at` gets a new non-zero value,
or a pulse is issued) starts from `trigger_at > 0` with `now > trigger_at`. -/
theorem C7_no_rearm_while_armed (s : Sensor) (master : Bool) (slave : Sensor) (now : Nat)
    (harmed : s.trigger_at = 0) (htriggered : 0 < s.triggered) :
    ((s.update master slave now).self.triggered = s.triggered ∨
      (s.update master slave now).self.triggered = 0) ∧
    ((s.update master slave now).self.timeout_at = s.timeout_at ∨
      (s.update master slave now).self.timeout_at = 0) ∧
    (s.update master slave now).pins = [] ∧
    (∀ (s2 : Sensor) (master2 : Bool) (slave2 : Sensor) (now2 : Nat),
      (((s2.update master2 slave2 now2).self.triggered ≠ s2.triggered ∧
          (s2.update master2 slave2 now2).self.triggered ≠ 0) ∨
        ((s2.update master2 slave2 now2).self.timeout_at ≠ s2.timeout_at ∧
          (s2.update master2 slave2 now2).self.timeout_at ≠ 0) ∨
        (s2.update master2 slave2 now2).pins ≠ []) →
      s2.trigger_at > 0 ∧ now2 > s2.trigger_at ∧ master2 = true) := by
  have hno : ¬ (s.trigger_at > 0 ∧ now > s.trigger_at ∧ master = true) := by omega
  have _harmed_state : s.trigger_at = 0 ∧ 0 < s.triggered := ⟨harmed, htriggered⟩
  have key := Sensor.update_arms_only_when_due s master slave now
  refine ⟨?_, ?_, ?_, Sensor.update_arms_only_when_due⟩
  · by_contra hcon
    exact hno (key (Or.inl (not_or.mp hcon)))
  · by_contra hcon
    exact hno (key (Or.inr (Or.inl (not_or.mp hcon))))
  · by_contra hcon
    exact hno (key (Or.inr (Or.inr hcon)))

/-- C7 for the sensor armed at 1000 and the call at `now = 51001`, where the
timeout resets `triggered`; no pulse is issued. -/
theorem C7_no_rearm_while_armed_witness :
    (((demo_armed 1000).update true (Sensor.new 2 25 26) 51001).self.triggered
        = (demo_armed 1000).triggered ∨
      ((demo_armed 1000).update true (Sensor.new 2 25 26) 51001).self.triggered = 0) ∧
    ((demo_armed 1000).update true (Sensor.new 2 25 26) 51001).pins = [] :=
  ⟨(C7_no_rearm_while_armed (demo_armed 1000) true (Sensor.new 2 25 26) 51001 rfl
      (by decide)).1,
   (C7_no_rearm_while_armed (demo_armed 1000) true (Sensor.new 2 25 26) 51001 rfl
      (by decide)).2.2.1⟩

/-- C8. With `start > 0` and `end > 0`, and `start + 40000`, `now + 5000` within the
`uint32_t` range, `Sensor::update` sets
`trigger_at = max(start + 40000, now + 5000)`, resets `start`, `end`, `triggered`
and `timeout_at` to 0, and returns: the call is the block `// Read response`
alone, it issues no trigger pulse, leaves its `slave` parameter alone, and the
`timeout` flag of the measurement is decided by the pulse width only, also when
`timeout_at` has expired. -/
theorem C8_echo_exit (s : Sensor) (master : Bool) (slave : Sensor) (now : Nat)
    (hstart : 0 < s.start) (hend : 0 < s.end_)
    (hfit1 : s.start + 40000 < 4294967296) (hfit2 : now + 5000 < 4294967296) :
    (s.update master slave now).self.trigger_at = max (s.start + 40000) (now + 5000) ∧
    (s.update master slave now).self.start = 0 ∧
    (s.update master slave now).self.end_ = 0 ∧
    (s.update master slave now).self.triggered = 0 ∧
    (s.update master slave now).self.timeout_at = 0 ∧
    s.update master slave now = { self := s.read_response now, slave := slave, pins := [] } ∧
    (s.update master slave now).pins = [] ∧
    (s.update master slave now).slave = slave ∧
    ((s.update master slave now).self.measurement.timeout = true
      ↔ u32_sub s.end_ s.start > 35000) ∧
    (s.timeout_at > 0 → now > s.timeout_at → u32_sub s.end_ s.start ≤ 35000 →
      (s.update master slave now).self.measurement.timeout = false ∧
      (s.update master slave now).self.measurement.tof = u32_sub s.end_ s.start) := by
  rw [Sensor.update_of_echo s master slave now hstart hend]
  refine ⟨?_, rfl, rfl, rfl, rfl, rfl, rfl, rfl, ?_, ?_⟩
  · show max (u32_add s.start Sensor.interval) (u32_add now Sensor.min_delay) = _
    rw [Sensor.interval, Sensor.min_delay, u32_add_of_lt hfit1, u32_add_of_lt hfit2]
  · simp [Sensor.read_response, Sensor.no_response_threshold]
  · intro _ _ hw
    constructor
    · simp only [Sensor.read_response, Sensor.no_response_threshold]
      exact decide_eq_false (by omega)
    · rfl

/-- C8 for the echo `(1000, 1500)` read at `now = 60000` on a sensor armed at 500
whose `timeout_at = 50500` has expired: the echo wins. -/
theorem C8_echo_exit_witness :
    (({ demo_armed 500 with start := 1000, end_ := 1500 } : Sensor).update true
        (Sensor.new 2 25 26) 60000).self.trigger_at = max (1000 + 40000) (60000 + 5000) ∧
    (({ demo_armed 500 with start := 1000, end_ := 1500 } : Sensor).update true
        (Sensor.new 2 25 26) 60000).self.measurement.timeout = false :=
  ⟨(C8_echo_exit { demo_armed 500 with start := 1000, end_ := 1500 } true
      (Sensor.new 2 25 26) 60000 (by decide) (by decide) (by decide) (by decide)).1,
   ((C8_echo_exit { demo_armed 500 with start := 1000, end_ := 1500 } true
      (Sensor.new 2 25 26) 60000 (by decide) (by decide) (by decide) (by decide)).2.2.2.2.2.2.2.2.2
      (by decide) (by decide) (by decide)).1⟩

/-! ## C10: the capture time -/

/-- C10. For every microsecond clock value `us`, each of the four send functions
stamps its event with `seconds = us / 1000000` and
`nanoseconds = (us mod 1000000) * 1000`; the product stays below `10^9`, so the
`uint32_t` multiplication does not wrap, and
`seconds * 1000000 + nanoseconds / 1000 = us`.  The four functions compute the
same time from the same `us`. -/
theorem C10_capture_time {K : Type} (P : Platform K) (us : Nat) (message : String)
    (type : TextMessage_Type) (source_id : Nat) (distance : K) (time_of_flight : Nat) :
    (send_text_message P us message type).event.time
      = [{ seconds := us / 1000000, nanoseconds := us % 1000000 * 1000 }] ∧
    (send_distance_measurement P us source_id distance time_of_flight).event.time
      = [{ seconds := us / 1000000, nanoseconds := us % 1000000 * 1000 }] ∧
    (send_button_press P us).event.time
      = [{ seconds := us / 1000000, nanoseconds := us % 1000000 * 1000 }] ∧
    (send_heartbeat P us).event.time
      = [{ seconds := us / 1000000, nanoseconds := us % 1000000 * 1000 }] ∧
    us % 1000000 * 1000 < 1000000000 ∧
    us % 1000000 * 1000 < 4294967296 ∧
    us / 1000000 * 1000000 + us % 1000000 * 1000 / 1000 = us := by
  have hmul : u32_mul (us % 1000000) 1000 = us % 1000000 * 1000 := by
    unfold u32_mul
    omega
  refine ⟨?_, ?_, ?_, ?_, by omega, by omega, by omega⟩
  · simp only [send_text_message, hmul]
  · simp only [send_distance_measurement, hmul]
  · simp only [send_button_press, hmul]
  · simp only [send_heartbeat, hmul]

/-! ## C9: the order of the events of one pass -/

/-- A list whose first part has a constant `f`-value that is below the `f`-values
of its second part, the second part being ordered by `f`, is ordered by `f`. -/
theorem pairwise_le_append_const {α : Type} (f : α → Nat) (c : Nat) (l₁ l₂ : List α)
    (h₁ : ∀ a ∈ l₁, f a = c) (h₂ : ∀ b ∈ l₂, c ≤ f b)
    (hp : l₂.Pairwise (fun a b => f a ≤ f b)) :
    (l₁ ++ l₂).Pairwise (fun a b => f a ≤ f b) := by
  rw [List.pairwise_append]
  refine ⟨?_, hp, ?_⟩
  · apply List.pairwise_of_forall_mem_list
    intro a ha b hb
    rw [h₁ a ha, h₁ b hb]
  · intro a ha b hb
    rw [h₁ a ha]
    exact h₂ b hb

/-- The update phase logs actions of phase 0 only. -/
theorem loop_update_phase {K : Type} (st : State) (t : Tick) :
    ∀ a ∈ (@loop_update K st t).2, a.phase = 0 := by
  intro a ha
  simp only [loop_update, List.mem_append, List.mem_cons, List.mem_map] at ha
  rcases ha with (rfl | ⟨op, _, rfl⟩) | (rfl | ⟨op, _, rfl⟩) <;> rfl

/-- The heartbeat statement logs actions of phase 1 only. -/
theorem loop_heartbeat_phase {K : Type} [Field K] (P : Platform K) (st : State) (t : Tick) :
    ∀ a ∈ (loop_heartbeat P st t).2, a.phase = 1 := by
  intro a ha
  by_cases hc : (st.heartbeat.check t.ms_check).1 = true
  · simp only [loop_heartbeat, hc, if_true, List.mem_singleton] at ha
    rw [ha]
    rfl
  · simp [loop_heartbeat, hc] at ha

/-- Reading a sensor logs actions of phase 2 only. -/
theorem report_phase {K : Type} [Field K] (P : Platform K) (sensor : Sensor) (us : Nat) :
    ∀ a ∈ (report P sensor us).2, a.phase = 2 := by
  intro a ha
  by_cases hn : sensor.has_new_measurement = true
  · simp only [report, hn, if_true, List.mem_singleton] at ha
    rw [ha]
    rfl
  · simp [report, hn] at ha

/-- The button statement logs actions of phase 3 only. -/
theorem loop_button_phase {K : Type} [Field K] (P : Platform K) (t : Tick) :
    ∀ a ∈ loop_button P t, a.phase = 3 := by
  intro a ha
  by_cases hg : t.gotPressed = true
  · simp only [loop_button, hg, if_true, List.mem_singleton] at ha
    rw [ha]
    rfl
  · simp [loop_button, hg] at ha

/-- The log of a pass is ordered by phase: update calls, then the heartbeat event,
then the distance events, then the button event. -/
theorem loop_phase_ordered {K : Type} [Field K] (P : Platform K) (st : State) (t : Tick) :
    (loop P st t).2.Pairwise (fun a b => a.phase ≤ b.phase) := by
  have hA := @loop_update_phase K st t
  have hB := loop_heartbeat_phase P (@loop_update K st t).1 t
  have hC0 := report_phase P (@loop_update K st t).1.sensors0 t.us_report0
  have hC1 := report_phase P (@loop_update K st t).1.sensors1 t.us_report1
  have hD := loop_button_phase P t
  have hC : ∀ a ∈ (report P (@loop_update K st t).1.sensors0 t.us_report0).2
      ++ (report P (@loop_update K st t).1.sensors1 t.us_report1).2, a.phase = 2 := by
    intro a ha
    rcases List.mem_append.mp ha with h | h
    · exact hC0 a h
    · exact hC1 a h
  rw [loop_log, List.append_assoc, List.append_assoc]
  apply pairwise_le_append_const Action.phase 0 _ _ hA
  · intro b _
    exact Nat.zero_le _
  apply pairwise_le_append_const Action.phase 1 _ _ hB
  · intro b hb
    rcases List.mem_append.mp hb with h | h
    · rw [hC b h]
      decide
    · rw [hD b h]
      decide
  apply pairwise_le_append_const Action.phase 2 _ _ hC
  · intro b hb
    rw [hD b hb]
    decide
  apply List.pairwise_of_forall_mem_list
  intro a ha b hb
  rw [hD a ha, hD b hb]

/-- How the classes of actions sit in the phases. -/
theorem Action.phase_of_class {K : Type} (a : Action K) :
    (a.is_update = true → a.phase = 0) ∧
    (a.is_send = true → 1 ≤ a.phase) ∧
    (a.is_heartbeat = true → a.phase = 1) ∧
    (a.is_distance = true → a.phase = 2) ∧
    (a.is_user_input = true → a.phase = 3) := by
  cases a with
  | update i => simp [Action.is_update, Action.is_send, Action.is_heartbeat,
      Action.is_distance, Action.is_user_input, Action.phase]
  | pin op => simp [Action.is_update, Action.is_send, Action.is_heartbeat,
      Action.is_distance, Action.is_user_input]
  | send p =>
    rcases p with ⟨⟨time, content⟩, ok, n⟩
    cases content <;>
      simp [Action.is_update, Action.is_send, Action.is_heartbeat,
        Action.is_distance, Action.is_user_input, Action.phase]

/-- The update calls of a pass are `sensors[0].update` then `sensors[1].update`. -/
theorem loop_update_calls {K : Type} [Field K] (P : Platform K) (st : State) (t : Tick) :
    (loop P st t).2.filter Action.is_update = [Action.update 0, Action.update 1] := by
  have hnone : ∀ l : List (Action K), (∀ a ∈ l, a.phase ≠ 0) →
      l.filter Action.is_update = [] := by
    intro l hl
    rw [List.filter_eq_nil_iff]
    intro a ha hup
    exact hl a ha ((Action.phase_of_class a).1 hup)
  have hB : (loop_heartbeat P (@loop_update K st t).1 t).2.filter Action.is_update = [] :=
    hnone _ (fun a ha => by rw [loop_heartbeat_phase P _ t a ha]; decide)
  have hC0 : (report P (@loop_update K st t).1.sensors0 t.us_report0).2.filter
      Action.is_update = [] :=
    hnone _ (fun a ha => by rw [report_phase P _ _ a ha]; decide)
  have hC1 : (report P (@loop_update K st t).1.sensors1 t.us_report1).2.filter
      Action.is_update = [] :=
    hnone _ (fun a ha => by rw [report_phase P _ _ a ha]; decide)
  have hD : (loop_button P t).filter Action.is_update = [] :=
    hnone _ (fun a ha => by rw [loop_button_phase P t a ha]; decide)
  have hpins : ∀ l : List PinOp, (l.map (@Action.pin K)).filter Action.is_update = [] := by
    intro l
    rw [List.filter_eq_nil_iff]
    intro a ha
    rcases List.mem_map.mp ha with ⟨op, _, rfl⟩
    simp [Action.is_update]
  rw [loop_log, List.filter_append, List.filter_append, List.filter_append,
    List.filter_append, hB, hC0, hC1, hD]
  simp [loop_update, List.filter_cons, Action.is_update, hpins]

/-- C9 (the claim fails). The pass `demo_tick` on `demo_state`: the heartbeat is due
and `sensors[0]` has an echo to report.  The log of the pass is
update 0, update 1, heartbeat event, distance event: a heartbeat event precedes a
distance event. -/
theorem C9_heartbeat_precedes_distance :
    (loop demo_platform demo_state demo_tick).2.map Action.phase = [0, 0, 1, 2] ∧
    (loop demo_platform demo_state demo_tick).2.map Action.is_heartbeat
      = [false, false, true, false] ∧
    (loop demo_platform demo_state demo_tick).2.map Action.is_distance
      = [false, false, false, true] ∧
    ¬ (loop demo_platform demo_state demo_tick).2.Pairwise
        (fun a b => ¬ ((a.is_heartbeat = true ∨ a.is_user_input = true)
                        ∧ b.is_distance = true)) := by
  refine ⟨by decide, by decide, by decide, by decide⟩

/-- C9 (amended). In every pass of `loop()` the two update calls,
`sensors[0].update` then `sensors[1].update`, precede every send; no distance
event precedes the heartbeat event (the heartbeat, when due, is sent first); no
button (user-input) event precedes a distance event or the heartbeat event. -/
theorem C9_event_order {K : Type} [Field K] (P : Platform K) (st : State) (t : Tick) :
    (loop P st t).2.filter Action.is_update = [Action.update 0, Action.update 1] ∧
    (loop P st t).2.Pairwise (fun a b => ¬ (a.is_send = true ∧ b.is_update = true)) ∧
    (loop P st t).2.Pairwise (fun a b => ¬ (a.is_distance = true ∧ b.is_heartbeat = true)) ∧
    (loop P st t).2.Pairwise (fun a b => ¬ (a.is_user_input = true ∧ b.is_distance = true)) ∧
    (loop P st t).2.Pairwise
      (fun a b => ¬ (a.is_user_input = true ∧ b.is_heartbeat = true)) := by
  have hord := loop_phase_ordered P st t
  refine ⟨loop_update_calls P st t, ?_, ?_, ?_, ?_⟩
  · refine hord.imp ?_
    intro a b hab ⟨ha, hb⟩
    have h1 := (Action.phase_of_class a).2.1 ha
    have h2 := (Action.phase_of_class b).1 hb
    omega
  · refine hord.imp ?_
    intro a b hab ⟨ha, hb⟩
    have h1 := (Action.phase_of_class a).2.2.2.1 ha
    have h2 := (Action.phase_of_class b).2.2.1 hb
    omega
  · refine hord.imp ?_
    intro a b hab ⟨ha, hb⟩
    have h1 := (Action.phase_of_class a).2.2.2.2 ha
    have h2 := (Action.phase_of_class b).2.2.2.1 hb
    omega
  · refine hord.imp ?_
    intro a b hab ⟨ha, hb⟩
    have h1 := (Action.phase_of_class a).2.2.2.2 ha
    have h2 := (Action.phase_of_class b).2.2.1 hb
    omega

/-! ## C11 – C12: the distance over the reals -/

/-- Over the reals, `get_distance` is `20.05 * sqrt(273.16 + T) * tof / 2000000`. -/
theorem get_distance_real_eq (m : SensorMeasurement) (T : ℝ) :
    m.get_distance Real.sqrt T
      = 20.05 * Real.sqrt (273.16 + T) * (m.tof : ℝ) / 2000000 := by
  unfold SensorMeasurement.get_distance
  norm_num
  ring

/-- The square root of `273.16 + 19.307` lies between 17.1 and 17.103. -/
theorem sqrt_default_temperature_bounds :
    (17.1 : ℝ) < Real.sqrt (273.16 + 19.307) ∧
    Real.sqrt (273.16 + 19.307) < (17.103 : ℝ) := by
  constructor
  · rw [Real.lt_sqrt (by norm_num)]
    norm_num
  · rw [Real.sqrt_lt' (by norm_num)]
    norm_num

/-- At 19.307 °C a time of flight of 500 µs is a distance between 0.0857 m and
0.08575 m, so 857 tenths of a millimetre after rounding. -/
theorem get_distance_500 (m : SensorMeasurement) (h : m.tof = 500) :
    (0.0857 : ℝ) < m.get_distance Real.sqrt 19.307 ∧
    m.get_distance Real.sqrt 19.307 < (0.08575 : ℝ) ∧
    round (m.get_distance Real.sqrt 19.307 * 10000) = 857 := by
  rw [get_distance_real_eq, h]
  have hb := sqrt_default_temperature_bounds
  refine ⟨?_, ?_, ?_⟩
  · push_cast
    nlinarith [hb.1]
  · push_cast
    nlinarith [hb.2]
  · rw [round_eq, Int.floor_eq_iff]
    constructor
    · push_cast
      nlinarith [hb.1]
    · push_cast
      nlinarith [hb.2]

/-- The report of a sensor holding a measurement that did not time out: the
distance is `get_distance()` with the default temperature 19.307, the time of
flight is `tof * 1000` on `uint32_t`. -/
theorem report_measured {K : Type} [Field K] (P : Platform K) (sensor : Sensor) (us : Nat)
    (hnew : sensor.has_new_measurement = true) (hto : sensor.measurement.timeout = false) :
    report P sensor us
      = ({ sensor with has_new_measurement := false },
         [Action.send (send_distance_measurement P us sensor.source_id
            (sensor.measurement.get_distance P.sqrt 19.307)
            (u32_mul sensor.measurement.tof 1000))]) := by
  simp [report, hnew, hto]

/-- C11. Over exact real arithmetic (`sqrt` the real square root, no floating-point
rounding), for every time of flight and every temperature `T` with
`273.16 + T ≥ 0`: `get_distance(T)` is `20.05 * sqrt(273.16 + T) * tof / 2000000`,
where `20.05 * sqrt(273.16 + T)` is the non-negative number whose square is
`20.05² * (273.16 + T)`; it is 0 for `tof = 0` and non-decreasing in `tof`; the
call without argument, the one `loop()` makes, uses `T = 19.307`. -/
theorem C11_get_distance_formula (m : SensorMeasurement) (T : ℝ) (hT : 0 ≤ 273.16 + T) :
    m.get_distance Real.sqrt T
      = 20.05 * Real.sqrt (273.16 + T) * (m.tof : ℝ) / 2000000 ∧
    (20.05 * Real.sqrt (273.16 + T)) ^ 2 = 20.05 ^ 2 * (273.16 + T) ∧
    0 ≤ 20.05 * Real.sqrt (273.16 + T) ∧
    (m.tof = 0 → m.get_distance Real.sqrt T = 0) ∧
    (∀ m2 : SensorMeasurement, m.tof ≤ m2.tof →
      m.get_distance Real.sqrt T ≤ m2.get_distance Real.sqrt T) ∧
    (∀ (P : Platform ℝ) (sensor : Sensor) (us : Nat), sensor.measurement = m →
      sensor.has_new_measurement = true → m.timeout = false →
      (report P sensor us).2
        = [Action.send (send_distance_measurement P us sensor.source_id
            (m.get_distance P.sqrt 19.307) (u32_mul m.tof 1000))]) := by
  have hs : 0 ≤ Real.sqrt (273.16 + T) := Real.sqrt_nonneg _
  refine ⟨get_distance_real_eq m T, ?_, ?_, ?_, ?_, ?_⟩
  · rw [mul_pow, Real.sq_sqrt hT]
  · positivity
  · intro h0
    rw [get_distance_real_eq, h0]
    simp
  · intro m2 hle
    rw [get_distance_real_eq, get_distance_real_eq]
    have hc : (m.tof : ℝ) ≤ (m2.tof : ℝ) := Nat.cast_le.mpr hle
    have hk : 0 ≤ 20.05 * Real.sqrt (273.16 + T) := by positivity
    have := mul_le_mul_of_nonneg_left hc hk
    linarith
  · intro P sensor us hm hnew hto
    subst hm
    rw [report_measured P sensor us hnew hto]

/-- C11 for a time of flight of 500 µs at 19.307 °C. -/
theorem C11_get_distance_formula_witness :
    ({ start := 1000, tof := 500, timeout := false } : SensorMeasurement).get_distance
        Real.sqrt 19.307
      = 20.05 * Real.sqrt (273.16 + 19.307) * ((500 : Nat) : ℝ) / 2000000 :=
  (C11_get_distance_formula { start := 1000, tof := 500, timeout := false } 19.307
    (by norm_num)).1

/-- C12 (the claim fails). The echo `(1000, 1500)` of `sensors[0]`, read at
`now = 2000`: the distance at 19.307 °C is below 0.08575 m, and rounded to four
decimal places it is not 0.0858 m. -/
theorem C12_distance_not_0858 :
    ((demo_echo 1000 1500).update true (Sensor.new 2 25 26) 2000).self.measurement.get_distance
        Real.sqrt 19.307 < (0.08575 : ℝ) ∧
    ¬ ((round (((demo_echo 1000 1500).update true (Sensor.new 2 25 26)
          2000).self.measurement.get_distance Real.sqrt 19.307 * 10000) : ℝ) / 10000
        = 0.0858) := by
  have h := get_distance_500
    ((demo_echo 1000 1500).update true (Sensor.new 2 25 26) 2000).self.measurement
    (by decide)
  refine ⟨h.2.1, ?_⟩
  rw [h.2.2]
  norm_num

/-- C12 (amended). For the echo `start = 1000`, `end = 1500` at the default
temperature 19.307 °C, `Sensor::update` yields `tof = 500` with `timeout = false`,
and `get_distance` over the reals is `20.05 * sqrt(273.16 + 19.307) * 0.0005 / 2`,
a value between 0.0857 and 0.08575 that is 0.0857 m when rounded to four decimal
places. -/
theorem C12_scenario_distance (s : Sensor) (master : Bool) (slave : Sensor) (now : Nat)
    (hrise : s.start = 1000) (hfall : s.end_ = 1500) :
    (s.update master slave now).self.measurement.tof = 500 ∧
    (s.update master slave now).self.measurement.timeout = false ∧
    (s.update master slave now).self.measurement.get_distance Real.sqrt 19.307
      = 20.05 * Real.sqrt (273.16 + 19.307) * 0.0005 / 2 ∧
    (0.0857 : ℝ) < (s.update master slave now).self.measurement.get_distance
        Real.sqrt 19.307 ∧
    (s.update master slave now).self.measurement.get_distance Real.sqrt 19.307
      < (0.08575 : ℝ) ∧
    (round ((s.update master slave now).self.measurement.get_distance Real.sqrt 19.307
        * 10000) : ℝ) / 10000 = 0.0857 := by
  have htof : (s.update master slave now).self.measurement.tof = 500 := by
    rw [Sensor.update_of_echo s master slave now (by omega) (by omega)]
    simp [Sensor.read_response, hrise, hfall, u32_sub]
  have hto : (s.update master slave now).self.measurement.timeout = false := by
    rw [Sensor.update_of_echo s master slave now (by omega) (by omega)]
    simp [Sensor.read_response, hrise, hfall, u32_sub, Sensor.no_response_threshold]
  have h := get_distance_500 (s.update master slave now).self.measurement htof
  refine ⟨htof, hto, ?_, h.1, h.2.1, ?_⟩
  · rw [get_distance_real_eq, htof]
    norm_num
    ring
  · rw [h.2.2]
    norm_num

/-- C12 (amended) for the echo `(1000, 1500)` of `sensors[0]`, read at `now = 2000`. -/
theorem C12_scenario_distance_witness :
    ((demo_echo 1000 1500).update true (Sensor.new 2 25 26) 2000).self.measurement.tof = 500 ∧
    ((demo_echo 1000 1500).update true (Sensor.new 2 25 26) 2000).self.measurement.timeout
      = false :=
  ⟨(C12_scenario_distance (demo_echo 1000 1500) true (Sensor.new 2 25 26) 2000 rfl rfl).1,
   (C12_scenario_distance (demo_echo 1000 1500) true (Sensor.new 2 25 26) 2000 rfl rfl).2.1⟩

/-! ## C13: when the edge timestamps are cleared -/

/-- What the block `// Trigger` does to the sensor itself. -/
theorem Sensor.trigger_self (s : Sensor) (master : Bool) (slave : Sensor) (now : Nat) :
    (s.trigger master slave now).self
      = if s.trigger_at > 0 ∧ now > s.trigger_at ∧ master = true then
          { s with trigger_at := 0, triggered := now, timeout_at := u32_add now Sensor.timeout }
        else s := by
  unfold Sensor.trigger
  by_cases h : s.trigger_at > 0 ∧ now > s.trigger_at ∧ master = true
  · rw [if_pos h, if_pos h]
    by_cases hr : (decide (slave.trigger_at > 0) && decide (now > slave.trigger_at)) = true
    · simp only [hr, if_true]
    · simp only [hr, if_false]
      rfl
  · rw [if_neg h, if_neg h]

/-- The block `// Trigger` leaves `start`, `end`, the measurement and its flag alone. -/
theorem Sensor.trigger_frame (s : Sensor) (master : Bool) (slave : Sensor) (now : Nat) :
    (s.trigger master slave now).self.start = s.start ∧
    (s.trigger master slave now).self.end_ = s.end_ ∧
    (s.trigger master slave now).self.measurement = s.measurement ∧
    (s.trigger master slave now).self.has_new_measurement = s.has_new_measurement := by
  rw [Sensor.trigger_self]
  split <;> exact ⟨rfl, rfl, rfl, rfl⟩

/-- Without a complete echo, a call of `update` that does not end in the block
`// Timeout` leaves `start` and `end` as they were. -/
theorem Sensor.update_keeps_edges (s : Sensor) (master : Bool) (slave : Sensor) (now : Nat)
    (hecho : s.start = 0 ∨ s.end_ = 0)
    (hno : ¬ ((s.trigger master slave now).self.timeout_at > 0 ∧
              now > (s.trigger master slave now).self.timeout_at)) :
    (s.update master slave now).self.start = s.start ∧
    (s.update master slave now).self.end_ = s.end_ := by
  rw [Sensor.update_of_no_echo s master slave now hecho]
  simp only [Sensor.check_timeout, if_neg hno]
  exact ⟨(Sensor.trigger_frame s master slave now).1,
    (Sensor.trigger_frame s master slave now).2.1⟩

/-- Without a complete echo, a call of `update` that ends in the block `// Timeout`
resets the edge timestamps and produces a timeout measurement. -/
theorem Sensor.update_timeout_clears (s : Sensor) (master : Bool) (slave : Sensor)
    (now : Nat) (hecho : s.start = 0 ∨ s.end_ = 0)
    (hfire : (s.trigger master slave now).self.timeout_at > 0 ∧
             now > (s.trigger master slave now).self.timeout_at) :
    (s.update master slave now).self.start = 0 ∧
    (s.update master slave now).self.end_ = 0 ∧
    (s.update master slave now).self.measurement.timeout = true ∧
    (s.update master slave now).self.has_new_measurement = true := by
  rw [Sensor.update_of_no_echo s master slave now hecho]
  simp only [Sensor.check_timeout, if_pos hfire, and_self]

/-- C13 (the claim fails). The sensor armed at 1000 (`timeout_at = 51000`) has
captured the rising edge `start = 1400` and no falling edge (`end = 0`).  The call
of `update` at `now = 51001` takes the block `// Timeout` and resets `start` to 0:
the rising edge is discarded without a full read, the measurement produced is a
timeout and its `tof` is not `end - start`. -/
theorem C13_timeout_discards_rising_edge :
    ({ demo_armed 1000 with start := 1400 } : Sensor).start = 1400 ∧
    ({ demo_armed 1000 with start := 1400 } : Sensor).end_ = 0 ∧
    (({ demo_armed 1000 with start := 1400 } : Sensor).update true (Sensor.new 2 25 26)
        51001).self.start = 0 ∧
    (({ demo_armed 1000 with start := 1400 } : Sensor).update true (Sensor.new 2 25 26)
        51001).self.measurement.timeout = true ∧
    (({ demo_armed 1000 with start := 1400 } : Sensor).update true (Sensor.new 2 25 26)
        51001).self.measurement.tof = 0 := by
  refine ⟨by decide, by decide, by decide, by decide, by decide⟩

/-- C13 (amended). `Sensor::update` clears the edge timestamps in two places only.
If a call changes `start` or `end` from a non-zero value to 0, then either both
`start > 0` and `end > 0` held beforehand and the call produced the measurement
with `tof = end - start` (on `uint32_t`) and `measurement.start = start`, or there was no
complete echo and the call ended in the block `// Timeout` (`timeout_at > 0` and
`now > timeout_at` after the trigger step), producing a timeout measurement.  A
captured rising edge (`start > 0`, `end = 0`) is kept by every call that does not
end in the block `// Timeout`, and discarded by every call that does. -/
theorem C13_edges_cleared_by_read_or_timeout (s : Sensor) (master : Bool) (slave : Sensor)
    (now : Nat) :
    (((s.start ≠ 0 ∧ (s.update master slave now).self.start = 0) ∨
        (s.end_ ≠ 0 ∧ (s.update master slave now).self.end_ = 0)) →
      (s.start > 0 ∧ s.end_ > 0 ∧
        (s.update master slave now).self.measurement.tof = u32_sub s.end_ s.start ∧
        (s.update master slave now).self.measurement.start = s.start ∧
        (s.update master slave now).self.has_new_measurement = true) ∨
      ((s.start = 0 ∨ s.end_ = 0) ∧
        (s.trigger master slave now).self.timeout_at > 0 ∧
        now > (s.trigger master slave now).self.timeout_at ∧
        (s.update master slave now).self.measurement.timeout = true ∧
        (s.update master slave now).self.has_new_measurement = true)) ∧
    (s.start > 0 → s.end_ = 0 →
      ¬ ((s.trigger master slave now).self.timeout_at > 0 ∧
          now > (s.trigger master slave now).self.timeout_at) →
      (s.update master slave now).self.start = s.start) ∧
    (s.start > 0 → s.end_ = 0 →
      (s.trigger master slave now).self.timeout_at > 0 →
      now > (s.trigger master slave now).self.timeout_at →
      (s.update master slave now).self.start = 0 ∧
      (s.update master slave now).self.measurement.timeout = true) := by
  refine ⟨?_, ?_, ?_⟩
  · intro hclear
    by_cases he : s.start > 0 ∧ s.end_ > 0
    · left
      rw [Sensor.update_of_echo s master slave now he.1 he.2]
      exact ⟨he.1, he.2, rfl, rfl, rfl⟩
    · right
      have hecho : s.start = 0 ∨ s.end_ = 0 := by omega
      by_cases hfire : (s.trigger master slave now).self.timeout_at > 0 ∧
          now > (s.trigger master slave now).self.timeout_at
      · have h := Sensor.update_timeout_clears s master slave now hecho hfire
        exact ⟨hecho, hfire.1, hfire.2, h.2.2.1, h.2.2.2⟩
      · have h := Sensor.update_keeps_edges s master slave now hecho hfire
        rw [h.1, h.2] at hclear
        rcases hclear with ⟨h1, h2⟩ | ⟨h1, h2⟩
        · exact absurd h2 h1
        · exact absurd h2 h1
  · intro _ hend hno
    exact (Sensor.update_keeps_edges s master slave now (Or.inr hend) hno).1
  · intro _ hend h1 h2
    have h := Sensor.update_timeout_clears s master slave now (Or.inr hend) ⟨h1, h2⟩
    exact ⟨h.1, h.2.2.1⟩

/-! ## C14: a failed `pb_encode` -/

/-- C14 (the claim fails). With an encoder that always fails, the four send
functions still hand a frame to `packetSerial.send` (here with the length 1000
that `pb_encode` left in `bytes_written`), and the pass `demo_tick` on
`demo_state` still sends its heartbeat and its distance event, both with a failed
encoding, and no text event. -/
theorem C14_failed_encode_still_sent :
    (send_text_message demo_failing_platform 5 "overflow" TextMessage_Type.INFO).encode_ok
      = false ∧
    (send_text_message demo_failing_platform 5 "overflow" TextMessage_Type.INFO).bytes_written
      = 1000 ∧
    (send_distance_measurement demo_failing_platform 5 1 99.0 10000).encode_ok = false ∧
    (send_button_press demo_failing_platform 5).encode_ok = false ∧
    (send_heartbeat demo_failing_platform 5).encode_ok = false ∧
    (loop demo_failing_platform demo_state demo_tick).2.map Action.phase = [0, 0, 1, 2] ∧
    ((loop demo_failing_platform demo_state demo_tick).2.filterMap Action.sent).map
        Sent.encode_ok = [false, false] ∧
    ((loop demo_failing_platform demo_state demo_tick).2.filterMap Action.sent).map
        Sent.bytes_written = [1000, 1000] := by
  refine ⟨rfl, rfl, rfl, rfl, rfl, by decide, by decide, by decide⟩

/-- No action of a pass of `loop()` sends a text message. -/
theorem loop_no_text_message {K : Type} [Field K] (P : Platform K) (st : State) (t : Tick) :
    ∀ a ∈ (loop P st t).2, a.phase ≠ 4 := by
  intro a ha
  rw [loop_log] at ha
  simp only [List.mem_append] at ha
  rcases ha with ((h | h) | (h | h)) | h
  · rw [loop_update_phase st t a h]
    decide
  · rw [loop_heartbeat_phase P _ t a h]
    decide
  · rw [report_phase P _ _ a h]
    decide
  · rw [report_phase P _ _ a h]
    decide
  · rw [loop_button_phase P t a h]
    decide

/-- C14 (amended). Each of `send_text_message`, `send_distance_measurement`,
`send_button_press` and `send_heartbeat` calls `packetSerial.send` exactly once,
whether `pb_encode` succeeds or fails: the status `pb_encode` returns is
discarded and the length passed is the `bytes_written` it left.  No diagnostic
text event is emitted: a pass of `loop()` sends no text message, and two
platforms that differ only in `pb_encode` produce the same state and the same
sequence of events. -/
theorem C14_send_ignores_encode_status {K : Type} [Field K] (P : Platform K) (us : Nat)
    (message : String) (type : TextMessage_Type) (source_id : Nat) (distance : K)
    (time_of_flight : Nat) :
    ((send_text_message P us message type).encode_ok
        = (P.pb_encode (send_text_message P us message type).event).1 ∧
      (send_text_message P us message type).bytes_written
        = (P.pb_encode (send_text_message P us message type).event).2 ∧
      (send_text_message P us message type).event.content
        = Content.text_message type message) ∧
    ((send_distance_measurement P us source_id distance time_of_flight).encode_ok
        = (P.pb_encode
            (send_distance_measurement P us source_id distance time_of_flight).event).1 ∧
      (send_distance_measurement P us source_id distance time_of_flight).bytes_written
        = (P.pb_encode
            (send_distance_measurement P us source_id distance time_of_flight).event).2 ∧
      (send_distance_measurement P us source_id distance time_of_flight).event.content
        = Content.distance_measurement source_id distance time_of_flight) ∧
    ((send_button_press P us).encode_ok = (P.pb_encode (send_button_press P us).event).1 ∧
      (send_button_press P us).bytes_written
        = (P.pb_encode (send_button_press P us).event).2 ∧
      (send_button_press P us).event.content
        = Content.user_input UserInput_Type.OVERTAKER UserInput_Direction.LEFT
            UserInput_Timing.IMMEDIATE) ∧
    ((send_heartbeat P us).encode_ok = (P.pb_encode (send_heartbeat P us).event).1 ∧
      (send_heartbeat P us).bytes_written = (P.pb_encode (send_heartbeat P us).event).2 ∧
      (send_heartbeat P us).event.content = Content.unset) ∧
    (∀ (st : State) (t : Tick), ∀ a ∈ (loop P st t).2, a.phase ≠ 4) ∧
    (∀ (Q : Platform K) (st : State) (t : Tick), Q.sqrt = P.sqrt →
      (loop Q st t).1 = (loop P st t).1 ∧
      ((loop Q st t).2.filterMap Action.sent).map Sent.event
        = ((loop P st t).2.filterMap Action.sent).map Sent.event) := by
  refine ⟨⟨rfl, rfl, rfl⟩, ⟨rfl, rfl, rfl⟩, ⟨rfl, rfl, rfl⟩, ⟨rfl, rfl, rfl⟩,
    loop_no_text_message P, ?_⟩
  intro Q st t hsqrt
  constructor
  · simp only [loop, loop_report, loop_heartbeat, report]
    split_ifs <;> rfl
  · simp only [loop, loop_report, loop_heartbeat, loop_button, report, loop_update, hsqrt]
    split_ifs <;>
      simp [Action.sent, List.filterMap_append, List.filterMap_cons, List.filterMap_map,
        send_heartbeat, send_distance_measurement, send_button_press]

/-! ## C15: the trigger branch -/

/-- The block `// Trigger` issues pin operations exactly when its condition holds. -/
theorem Sensor.trigger_pins (s : Sensor) (master : Bool) (slave : Sensor) (now : Nat) :
    (s.trigger master slave now).pins ≠ []
      ↔ (s.trigger_at > 0 ∧ now > s.trigger_at ∧ master = true) := by
  unfold Sensor.trigger
  by_cases h : s.trigger_at > 0 ∧ now > s.trigger_at ∧ master = true
  · rw [if_pos h]
    by_cases hr : (decide (slave.trigger_at > 0) && decide (now > slave.trigger_at)) = true
    · simp [hr, h]
    · simp [hr, h]
  · rw [if_neg h]
    simp [h]

/-- C15. For a sensor without a complete echo (`start = 0` or `end = 0`) and any
clock value `now`, `Sensor::update` takes the trigger branch (it pulses the
trigger pin) if and only if `master` is true, `trigger_at > 0` and
`now > trigger_at`.  When it does, the branch sets `trigger_at = 0`,
`triggered = now` and `timeout_at = now + 50000` on `uint32_t`, and for
`now + 50000` within the `uint32_t` range these are the values the call leaves;
when it does not, the trigger step changes nothing.  So a sensor is never armed
at a time that is not after its `trigger_at` deadline. -/
theorem C15_trigger_branch (s : Sensor) (master : Bool) (slave : Sensor) (now : Nat)
    (hecho : s.start = 0 ∨ s.end_ = 0) :
    ((s.update master slave now).pins ≠ []
      ↔ (master = true ∧ s.trigger_at > 0 ∧ now > s.trigger_at)) ∧
    ((master = true ∧ s.trigger_at > 0 ∧ now > s.trigger_at) →
      (s.trigger master slave now).self.trigger_at = 0 ∧
      (s.trigger master slave now).self.triggered = now ∧
      (s.trigger master slave now).self.timeout_at = u32_add now 50000 ∧
      (now + 50000 < 4294967296 →
        (s.update master slave now).self.trigger_at = 0 ∧
        (s.update master slave now).self.triggered = now ∧
        (s.update master slave now).self.timeout_at = now + 50000)) ∧
    (¬ (master = true ∧ s.trigger_at > 0 ∧ now > s.trigger_at) →
      s.trigger master slave now = { self := s, slave := slave, pins := [] }) ∧
    ((s.update master slave now).pins ≠ [] → s.trigger_at < now) := by
  have hpins : (s.update master slave now).pins = (s.trigger master slave now).pins := by
    rw [Sensor.update_of_no_echo s master slave now hecho]
  have hiff : (s.update master slave now).pins ≠ []
      ↔ (master = true ∧ s.trigger_at > 0 ∧ now > s.trigger_at) := by
    rw [hpins, Sensor.trigger_pins]
    constructor
    · intro h
      exact ⟨h.2.2, h.1, h.2.1⟩
    · intro h
      exact ⟨h.2.1, h.2.2, h.1⟩
  refine ⟨hiff, ?_, ?_, ?_⟩
  · intro h
    have hc : s.trigger_at > 0 ∧ now > s.trigger_at ∧ master = true := ⟨h.2.1, h.2.2, h.1⟩
    have hself := Sensor.trigger_self s master slave now
    rw [if_pos hc] at hself
    refine ⟨by rw [hself], by rw [hself], by rw [hself]; rfl, ?_⟩
    intro hfit
    have hadd : u32_add now Sensor.timeout = now + 50000 := u32_add_of_lt hfit
    rw [Sensor.update_of_no_echo s master slave now hecho, hself]
    have hno : ¬ (u32_add now Sensor.timeout > 0 ∧ now > u32_add now Sensor.timeout) := by
      rw [hadd]
      omega
    rw [Sensor.check_timeout, if_neg hno]
    exact ⟨rfl, rfl, hadd⟩
  · intro h
    unfold Sensor.trigger
    rw [if_neg (fun hc => h ⟨hc.2.2, hc.1, hc.2.1⟩)]
  · intro h
    exact (hiff.mp h).2.2

/-- C15 for `sensors[0]` as constructed (`trigger_at = 1`) at `now = 2`. -/
theorem C15_trigger_branch_witness :
    ((Sensor.new 1 15 4).update true (Sensor.new 2 25 26) 2).self.trigger_at = 0 ∧
    ((Sensor.new 1 15 4).update true (Sensor.new 2 25 26) 2).self.triggered = 2 ∧
    ((Sensor.new 1 15 4).update true (Sensor.new 2 25 26) 2).self.timeout_at = 2 + 50000 :=
  ((C15_trigger_branch (Sensor.new 1 15 4) true (Sensor.new 2 25 26) 2 (Or.inl rfl)).2.1
    ⟨rfl, by decide, by decide⟩).2.2.2 (by decide)

/-! ## C16: the slave is never armed -/

/-- A sensor with `triggered = 0` and `timeout_at = 0` that is updated with
`master = false` keeps both at 0; without a complete echo the call changes nothing. -/
theorem Sensor.update_slave (s : Sensor) (slave : Sensor) (now : Nat)
    (h1 : s.triggered = 0) (h2 : s.timeout_at = 0) :
    (s.update false slave now).self.triggered = 0 ∧
    (s.update false slave now).self.timeout_at = 0 ∧
    ((s.start = 0 ∨ s.end_ = 0) →
      s.update false slave now = { self := s, slave := slave, pins := [] }) := by
  have hidle : (s.start = 0 ∨ s.end_ = 0) →
      s.update false slave now = { self := s, slave := slave, pins := [] } := by
    intro hecho
    have ht : s.trigger false slave now = { self := s, slave := slave, pins := [] } := by
      unfold Sensor.trigger
      rw [if_neg (by simp)]
    rw [Sensor.update_of_no_echo s false slave now hecho, ht]
    simp only [Sensor.check_timeout, h2]
    rw [if_neg (by omega)]
  by_cases he : s.start > 0 ∧ s.end_ > 0
  · rw [Sensor.update_of_echo s false slave now he.1 he.2]
    exact ⟨rfl, rfl, fun hecho => absurd hecho (by omega)⟩
  · have hecho : s.start = 0 ∨ s.end_ = 0 := by omega
    rw [hidle hecho]
    exact ⟨h1, h2, fun _ => rfl⟩

/-- In every reachable state `sensors[1]` has `triggered = 0` and `timeout_at = 0`. -/
theorem State.Reachable.slave_idle (st : State) (h : State.Reachable st) :
    st.sensors1.triggered = 0 ∧ st.sensors1.timeout_at = 0 := by
  induction h with
  | setup ms => exact ⟨rfl, rfl⟩
  | update0 st now _ ih => exact ih
  | update1 st now _ ih =>
    exact ⟨(Sensor.update_slave st.sensors1 st.sensors1 now ih.1 ih.2).1,
      (Sensor.update_slave st.sensors1 st.sensors1 now ih.1 ih.2).2.1⟩
  | heartbeat st a b _ ih => exact ih
  | read0 st _ ih => exact ih
  | read1 st _ ih => exact ih
  | interrupt_sensor0 st level us _ ih => exact ih
  | interrupt_sensor1 st level us _ ih =>
    cases level <;> exact ih

/-- A pass of `loop()` leads from a reachable state to a reachable state. -/
theorem State.Reachable.loop {K : Type} [Field K] (P : Platform K) (st : State) (t : Tick)
    (h : State.Reachable st) : State.Reachable (loop P st t).1 := by
  have ha : State.Reachable (@loop_update K st t).1 :=
    State.Reachable.update1 _ t.us_update1 (State.Reachable.update0 st t.us_update0 h)
  have hb : State.Reachable (loop_heartbeat P (@loop_update K st t).1 t).1 := by
    have hstep := State.Reachable.heartbeat _ t.ms_check t.ms_start ha
    unfold loop_heartbeat
    by_cases hc : ((@loop_update K st t).1.heartbeat.check t.ms_check).1 = true
    · simp only [hc, if_true] at hstep ⊢
      exact hstep
    · simp only [hc] at hstep ⊢
      exact hstep
  have hread0 : ∀ s : State, State.Reachable s → ∀ us : Nat,
      State.Reachable { s with sensors0 := (report P s.sensors0 us).1 } := by
    intro s hs us
    by_cases hn : s.sensors0.has_new_measurement = true
    · simp only [report, hn, if_true]
      exact State.Reachable.read0 s hs
    · simp only [report, hn]
      exact hs
  have hread1 : ∀ s : State, State.Reachable s → ∀ us : Nat,
      State.Reachable { s with sensors1 := (report P s.sensors1 us).1 } := by
    intro s hs us
    by_cases hn : s.sensors1.has_new_measurement = true
    · simp only [report, hn, if_true]
      exact State.Reachable.read1 s hs
    · simp only [report, hn]
      exact hs
  have hc := hread1 _ (hread0 _ hb t.us_report0) t.us_report1
  exact hc

/-- C16. In every state reachable from `setup()` by passes of `loop()` (which calls
`sensors[i].update(i==0, sensors[1])` for `i = 0, 1`) and echo interrupts,
`sensors[1].triggered = 0` and `sensors[1].timeout_at = 0`.  So the call
`sensors[1].update(false, sensors[1])` never takes the timeout branch: without a
complete echo it changes nothing and issues no pulse, and whenever it sets
`has_new_measurement` or changes `trigger_at` a complete echo was present (the
call is the block `// Read response`). -/
theorem C16_slave_never_armed (st : State) (hreach : State.Reachable st) :
    st.sensors1.triggered = 0 ∧
    st.sensors1.timeout_at = 0 ∧
    (∀ now : Nat, (st.sensors1.start = 0 ∨ st.sensors1.end_ = 0) →
      st.sensors1.update false st.sensors1 now
        = { self := st.sensors1, slave := st.sensors1, pins := [] }) ∧
    (∀ now : Nat,
      ((st.sensors1.update false st.sensors1 now).self.measurement ≠ st.sensors1.measurement ∨
        (st.sensors1.update false st.sensors1 now).self.has_new_measurement
          ≠ st.sensors1.has_new_measurement ∨
        (st.sensors1.update false st.sensors1 now).self.trigger_at ≠ st.sensors1.trigger_at) →
      st.sensors1.start > 0 ∧ st.sensors1.end_ > 0 ∧
      (st.sensors1.update false st.sensors1 now).self = st.sensors1.read_response now) ∧
    (∀ (K : Type) [Field K] (P : Platform K) (t : Tick),
      State.Reachable (loop P st t).1 ∧
      (loop P st t).1.sensors1.triggered = 0 ∧ (loop P st t).1.sensors1.timeout_at = 0) := by
  have hidle := State.Reachable.slave_idle st hreach
  have hupd := fun now : Nat =>
    Sensor.update_slave st.sensors1 st.sensors1 now hidle.1 hidle.2
  refine ⟨hidle.1, hidle.2, fun now => (hupd now).2.2, ?_, ?_⟩
  · intro now hchange
    by_cases he : st.sensors1.start > 0 ∧ st.sensors1.end_ > 0
    · refine ⟨he.1, he.2, ?_⟩
      rw [Sensor.update_of_echo st.sensors1 false st.sensors1 now he.1 he.2]
    · have hecho : st.sensors1.start = 0 ∨ st.sensors1.end_ = 0 := by omega
      rw [(hupd now).2.2 hecho] at hchange
      simp at hchange
  · intro K _ P t
    have hl := State.Reachable.loop P st t hreach
    exact ⟨hl, State.Reachable.slave_idle _ hl⟩

/-- C16 for the state after the first pass of the program, in which the master
fires at `micros() = 2` with the slave eligible. -/
theorem C16_slave_never_armed_witness :
    (loop demo_platform (State.setup 0)
        { demo_tick with us_update0 := 2, us_update1 := 3 }).1.sensors1.triggered = 0 ∧
    (loop demo_platform (State.setup 0)
        { demo_tick with us_update0 := 2, us_update1 := 3 }).1.sensors1.timeout_at = 0 :=
  ⟨(C16_slave_never_armed _
      (State.Reachable.loop demo_platform (State.setup 0)
        { demo_tick with us_update0 := 2, us_update1 := 3 }
        (State.Reachable.setup 0))).1,
   (C16_slave_never_armed _
      (State.Reachable.loop demo_platform (State.setup 0)
        { demo_tick with us_update0 := 2, us_update1 := 3 }
        (State.Reachable.setup 0))).2.1⟩

/-! ## C17: the reported time of flight does not wrap -/

/-- A call of `update` keeps "`timeout = false` implies `tof ≤ 35000`". -/
theorem Sensor.update_tof_bound (s : Sensor) (master : Bool) (slave : Sensor) (now : Nat)
    (h : s.measurement.timeout = false → s.measurement.tof ≤ 35000) :
    (s.update master slave now).self.measurement.timeout = false →
    (s.update master slave now).self.measurement.tof ≤ 35000 := by
  by_cases he : s.start > 0 ∧ s.end_ > 0
  · rw [Sensor.update_of_echo s master slave now he.1 he.2]
    intro hto
    simp only [Sensor.read_response, Sensor.no_response_threshold, decide_eq_false_iff_not,
      not_lt] at hto ⊢
    exact hto
  · have hecho : s.start = 0 ∨ s.end_ = 0 := by omega
    rw [Sensor.update_of_no_echo s master slave now hecho]
    have hf := Sensor.trigger_frame s master slave now
    by_cases hfire : (s.trigger master slave now).self.timeout_at > 0 ∧
        now > (s.trigger master slave now).self.timeout_at
    · simp [Sensor.check_timeout, hfire]
    · simp only [Sensor.check_timeout, if_neg hfire]
      rw [hf.2.2.1]
      exact h

/-- In every reachable sensor state a measurement that is not a timeout has
`tof ≤ 35000`. -/
theorem Sensor.Reachable.tof_bound (s : Sensor) (h : Sensor.Reachable s) :
    s.measurement.timeout = false → s.measurement.tof ≤ 35000 := by
  induction h with
  | new a b c =>
    intro _
    simp [Sensor.new]
  | update s master slave now _ ih => exact Sensor.update_tof_bound s master slave now ih
  | echo s level us _ ih =>
    cases level <;> exact ih
  | read s _ ih => exact ih

/-- C17. In every reachable sensor state `measurement.timeout = false` implies
`measurement.tof ≤ 35000`.  Hence for a measurement that is not a timeout the
`uint32_t` product `measurement.tof * 1000` of `loop()` is the exact product, at
most 35000000, and it is the `time_of_flight` of the distance event; for the
measurement a call of `update` has just read from `start`, `end` that is
`1000 * (end - start)` (the `uint32_t` difference, the plain one for
`start ≤ end`). -/
theorem C17_tof_nanoseconds_exact (s : Sensor) (hreach : Sensor.Reachable s) :
    (s.measurement.timeout = false → s.measurement.tof ≤ 35000) ∧
    (s.measurement.timeout = false →
      u32_mul s.measurement.tof 1000 = s.measurement.tof * 1000 ∧
      s.measurement.tof * 1000 ≤ 35000000) ∧
    (∀ (K : Type) [Field K] (P : Platform K) (us : Nat),
      s.has_new_measurement = true → s.measurement.timeout = false →
      (report P s us).2
        = [Action.send (send_distance_measurement P us s.source_id
            (s.measurement.get_distance P.sqrt 19.307) (1000 * s.measurement.tof))]) ∧
    (∀ (K : Type) [Field K] (P : Platform K) (master : Bool) (slave : Sensor) (now us : Nat),
      s.start > 0 → s.end_ > 0 →
      (s.update master slave now).self.measurement.timeout = false →
      u32_sub s.end_ s.start ≤ 35000 ∧
      (report P (s.update master slave now).self us).2
        = [Action.send (send_distance_measurement P us s.source_id
            ((s.update master slave now).self.measurement.get_distance P.sqrt 19.307)
            (1000 * u32_sub s.end_ s.start))] ∧
      (s.start ≤ s.end_ → s.end_ < 4294967296 →
        (report P (s.update master slave now).self us).2
          = [Action.send (send_distance_measurement P us s.source_id
              ((s.update master slave now).self.measurement.get_distance P.sqrt 19.307)
              (1000 * (s.end_ - s.start)))])) := by
  have hb := Sensor.Reachable.tof_bound s hreach
  have hmul : ∀ n : Nat, n ≤ 35000 → u32_mul n 1000 = 1000 * n := by
    intro n hn
    unfold u32_mul
    omega
  refine ⟨hb, ?_, ?_, ?_⟩
  · intro hto
    have := hb hto
    rw [hmul _ this]
    omega
  · intro K _ P us hnew hto
    rw [report_measured P s us hnew hto, hmul _ (hb hto)]
  · intro K _ P master slave now us hs he hto
    have hb2 := Sensor.update_tof_bound s master slave now hb hto
    have hnew : (s.update master slave now).self.has_new_measurement = true := by
      rw [Sensor.update_of_echo s master slave now hs he]
      rfl
    have htof : (s.update master slave now).self.measurement.tof = u32_sub s.end_ s.start := by
      rw [Sensor.update_of_echo s master slave now hs he]
      rfl
    have hid : (s.update master slave now).self.source_id = s.source_id := by
      rw [Sensor.update_of_echo s master slave now hs he]
      rfl
    have hrep := report_measured P (s.update master slave now).self us hnew hto
    rw [hmul _ hb2, hid, htof] at hrep
    refine ⟨htof ▸ hb2, ?_, ?_⟩
    · rw [hrep]
    · intro hle hr
      rw [hrep, u32_sub_of_le hle hr]

/-- C17 for `sensors[0]` after the echo `(1000, 1500)` was read at `now = 2000`:
`tof = 500 ≤ 35000`. -/
theorem C17_tof_nanoseconds_exact_witness :
    ((((Sensor.new 1 15 4).echo true 1000).echo false 1500).update true
        (Sensor.new 2 25 26) 2000).self.measurement.tof ≤ 35000 :=
  (C17_tof_nanoseconds_exact _
    (Sensor.Reachable.update _ true (Sensor.new 2 25 26) 2000
      (Sensor.Reachable.echo _ false 1500
        (Sensor.Reachable.echo _ true 1000 (Sensor.Reachable.new 1 15 4))))).1 (by decide)

/-! ## C18: the deadline after a timeout -/

/-- C18. A sensor armed by `update` at time `T` with `T + 50000 < 2^32`
(`trigger_at = 0`, `triggered = T`, `timeout_at = T + 50000`), without a complete
echo, that takes the timeout branch at a time `now` (`now > timeout_at`) with
`now + 5000 < 2^32`: the next deadline is `trigger_at = now + 5000`, the
alternative `triggered + 40000` is strictly smaller, and the deadline lies more
than 55000 µs after the previous trigger. -/
theorem C18_deadline_after_timeout (s : Sensor) (master : Bool) (slave : Sensor)
    (T now : Nat) (harmed : s.trigger_at = 0) (htrig : s.triggered = T)
    (hset : s.timeout_at = T + 50000) (hT : T + 50000 < 4294967296)
    (hecho : s.start = 0 ∨ s.end_ = 0) (hnow : now > s.timeout_at)
    (hfit : now + 5000 < 4294967296) :
    (s.update master slave now).self.trigger_at = now + 5000 ∧
    u32_add s.triggered 40000 < u32_add now 5000 ∧
    s.triggered + 40000 < now + 5000 ∧
    (s.update master slave now).self.trigger_at > T + 55000 ∧
    (s.update master slave now).self.measurement.timeout = true ∧
    (s.update master slave now).self.has_new_measurement = true := by
  have h1 : u32_add s.triggered 40000 = T + 40000 := by
    rw [htrig]
    exact u32_add_of_lt (by omega)
  have h2 : u32_add now 5000 = now + 5000 := u32_add_of_lt hfit
  have hfire : s.timeout_at > 0 ∧ now > s.timeout_at := ⟨by omega, hnow⟩
  have hupd : (s.update master slave now).self
      = { s with
          trigger_at := max (u32_add s.triggered Sensor.interval) (u32_add now Sensor.min_delay)
          triggered := 0
          start := 0
          end_ := 0
          timeout_at := 0
          measurement := { s.measurement with timeout := true }
          has_new_measurement := true } := by
    rw [Sensor.update_of_no_echo s master slave now hecho,
      Sensor.trigger_of_trigger_at_zero s master slave now harmed]
    simp only [Sensor.check_timeout, if_pos hfire]
  have hmax : (s.update master slave now).self.trigger_at = now + 5000 := by
    rw [hupd]
    show max (u32_add s.triggered 40000) (u32_add now 5000) = now + 5000
    rw [h1, h2]
    omega
  refine ⟨hmax, ?_, ?_, ?_, ?_, ?_⟩
  · rw [h1, h2]
    omega
  · omega
  · rw [hmax]
    omega
  · rw [hupd]
  · rw [hupd]

/-- C18 for the sensor armed at `T = 1000` and the call at `now = 51001`: the next
deadline is 56001. -/
theorem C18_deadline_after_timeout_witness :
    ((demo_armed 1000).update true (Sensor.new 2 25 26) 51001).self.trigger_at
      = 51001 + 5000 :=
  (C18_deadline_after_timeout (demo_armed 1000) true (Sensor.new 2 25 26) 1000 51001
    rfl rfl (by decide) (by decide) (Or.inl rfl) (by decide) (by decide)).1

/-! ## C19: arming and timing out in one call -/

/-- A call of `update` that issues a pin operation had no complete echo and met the
condition of the block `// Trigger`. -/
theorem Sensor.update_pins (s : Sensor) (master : Bool) (slave : Sensor) (now : Nat)
    (h : (s.update master slave now).pins ≠ []) :
    (s.start = 0 ∨ s.end_ = 0) ∧ s.trigger_at > 0 ∧ now > s.trigger_at ∧ master = true := by
  by_cases he : s.start > 0 ∧ s.end_ > 0
  · rw [Sensor.update_of_echo s master slave now he.1 he.2] at h
    exact absurd rfl h
  · have hecho : s.start = 0 ∨ s.end_ = 0 := by omega
    rw [Sensor.update_of_no_echo s master slave now hecho] at h
    exact ⟨hecho, (Sensor.trigger_pins s master slave now).mp h⟩

/-- C19 (the claim fails). The sensor `sensors[0]` as constructed
(`has_new_measurement = false`, `trigger_at = 1`), updated as master at
`now = 4294967295`: the call takes the trigger branch (it pulses pin 15), and
since `timeout_at = now + 50000` wraps to 49999 it takes the timeout branch too.
Afterwards `has_new_measurement = true` with a timeout measurement,
`triggered = 0` and `trigger_at = 39999`. -/
theorem C19_arming_call_reports_timeout :
    (Sensor.new 1 15 4).has_new_measurement = false ∧
    ((Sensor.new 1 15 4).update true (Sensor.new 2 25 26) 4294967295).pins ≠ [] ∧
    ((Sensor.new 1 15 4).trigger true (Sensor.new 2 25 26) 4294967295).self.timeout_at
      = 49999 ∧
    ((Sensor.new 1 15 4).update true (Sensor.new 2 25 26)
        4294967295).self.has_new_measurement = true ∧
    ((Sensor.new 1 15 4).update true (Sensor.new 2 25 26)
        4294967295).self.measurement.timeout = true ∧
    ((Sensor.new 1 15 4).update true (Sensor.new 2 25 26) 4294967295).self.triggered = 0 ∧
    ((Sensor.new 1 15 4).update true (Sensor.new 2 25 26) 4294967295).self.trigger_at
      = 39999 := by
  refine ⟨by decide, by decide, by decide, by decide, by decide, by decide, by decide⟩

/-- C19 (amended). For every state with `has_new_measurement = false` in which
`update` takes the trigger branch at a clock value `now`: if
`now + 50000 ≤ 2^32` (the `uint32_t` sum does not wrap, or wraps to exactly 0),
the state after that call has `has_new_measurement = false`, `triggered = now`
and `trigger_at = 0`, and the timeout branch is not taken in the arming call.  If
`now < 2^32 < now + 50000`, the sum wraps to a non-zero value below `now` and the
same call takes the timeout branch: it reports a timeout and disarms. -/
theorem C19_arming_call (s : Sensor) (master : Bool) (slave : Sensor) (now : Nat)
    (hnew : s.has_new_measurement = false)
    (hbranch : (s.update master slave now).pins ≠ []) :
    (now + 50000 ≤ 4294967296 →
      (s.update master slave now).self.has_new_measurement = false ∧
      (s.update master slave now).self.triggered = now ∧
      (s.update master slave now).self.trigger_at = 0 ∧
      (s.update master slave now).self.timeout_at = u32_add now 50000 ∧
      (s.update master slave now).self.measurement = s.measurement) ∧
    (now < 4294967296 → 4294967296 < now + 50000 →
      (s.update master slave now).self.has_new_measurement = true ∧
      (s.update master slave now).self.measurement.timeout = true ∧
      (s.update master slave now).self.triggered = 0 ∧
      (s.update master slave now).self.timeout_at = 0) := by
  have hb := Sensor.update_pins s master slave now hbranch
  have hself := Sensor.trigger_self s master slave now
  rw [if_pos hb.2] at hself
  have hupd : (s.update master slave now).self
      = Sensor.check_timeout
          { s with trigger_at := 0, triggered := now, timeout_at := u32_add now Sensor.timeout }
          now := by
    rw [Sensor.update_of_no_echo s master slave now hb.1, hself]
  constructor
  · intro hfit
    have hno : ¬ (u32_add now Sensor.timeout > 0 ∧ now > u32_add now Sensor.timeout) := by
      unfold u32_add Sensor.timeout
      omega
    rw [hupd, Sensor.check_timeout, if_neg hno]
    exact ⟨hnew, rfl, rfl, rfl, rfl⟩
  · intro hlt hwrap
    have hfire : u32_add now Sensor.timeout > 0 ∧ now > u32_add now Sensor.timeout := by
      unfold u32_add Sensor.timeout
      omega
    rw [hupd, Sensor.check_timeout, if_pos hfire]
    exact ⟨rfl, rfl, rfl, rfl⟩

/-- C19 (amended) for `sensors[0]` as constructed, armed at `now = 2`. -/
theorem C19_arming_call_witness :
    ((Sensor.new 1 15 4).update true (Sensor.new 2 25 26) 2).self.has_new_measurement
      = false ∧
    ((Sensor.new 1 15 4).update true (Sensor.new 2 25 26) 2).self.triggered = 2 ∧
    ((Sensor.new 1 15 4).update true (Sensor.new 2 25 26) 2).self.trigger_at = 0 :=
  ⟨((C19_arming_call (Sensor.new 1 15 4) true (Sensor.new 2 25 26) 2 rfl (by decide)).1
      (by decide)).1,
   ((C19_arming_call (Sensor.new 1 15 4) true (Sensor.new 2 25 26) 2 rfl (by decide)).1
      (by decide)).2.1,
   ((C19_arming_call (Sensor.new 1 15 4) true (Sensor.new 2 25 26) 2 rfl (by decide)).1
      (by decide)).2.2.1⟩

/-! ## C20: an armed sensor and its timeout -/

/-- A call of `update` keeps "`triggered` and `timeout_at` are both 0, or
`triggered > 0` and `timeout_at = triggered + 50000` on `uint32_t`". -/
theorem Sensor.update_timeout_scheduled (s : Sensor) (master : Bool) (slave : Sensor)
    (now : Nat)
    (h : (s.triggered = 0 ∧ s.timeout_at = 0) ∨
         (s.triggered > 0 ∧ s.timeout_at = u32_add s.triggered 50000)) :
    ((s.update master slave now).self.triggered = 0 ∧
      (s.update master slave now).self.timeout_at = 0) ∨
    ((s.update master slave now).self.triggered > 0 ∧
      (s.update master slave now).self.timeout_at
        = u32_add (s.update master slave now).self.triggered 50000) := by
  by_cases he : s.start > 0 ∧ s.end_ > 0
  · rw [Sensor.update_of_echo s master slave now he.1 he.2]
    exact Or.inl ⟨rfl, rfl⟩
  · have hecho : s.start = 0 ∨ s.end_ = 0 := by omega
    rw [Sensor.update_of_no_echo s master slave now hecho]
    by_cases hfire : (s.trigger master slave now).self.timeout_at > 0 ∧
        now > (s.trigger master slave now).self.timeout_at
    · rw [Sensor.check_timeout, if_pos hfire]
      exact Or.inl ⟨rfl, rfl⟩
    · rw [Sensor.check_timeout, if_neg hfire, Sensor.trigger_self]
      by_cases hc : s.trigger_at > 0 ∧ now > s.trigger_at ∧ master = true
      · rw [if_pos hc]
        exact Or.inr ⟨by show now > 0; omega, rfl⟩
      · rw [if_neg hc]
        exact h

/-- In every reachable sensor state `triggered` and `timeout_at` are both 0, or
`triggered > 0` and `timeout_at = triggered + 50000` on `uint32_t`. -/
theorem Sensor.Reachable.timeout_scheduled (s : Sensor) (h : Sensor.Reachable s) :
    (s.triggered = 0 ∧ s.timeout_at = 0) ∨
    (s.triggered > 0 ∧ s.timeout_at = u32_add s.triggered 50000) := by
  induction h with
  | new a b c => exact Or.inl ⟨rfl, rfl⟩
  | update s master slave now _ ih =>
    exact Sensor.update_timeout_scheduled s master slave now ih
  | echo s level us _ ih =>
    cases level <;> exact ih
  | read s _ ih => exact ih

/-- In every reachable sensor state the invariant `exclusive` holds. -/
theorem Sensor.Reachable.exclusive (s : Sensor) (h : Sensor.Reachable s) : s.exclusive := by
  induction h with
  | new a b c => simp [Sensor.exclusive, Sensor.new]
  | update s master slave now _ ih => exact Sensor.update_exclusive s master slave now ih
  | echo s level us _ ih => exact Sensor.echo_exclusive s level us ih
  | read s _ ih => exact ih

/-- A sensor with `trigger_at = 0` and `timeout_at = 0` and no complete echo is left
as it is by `update`, at every clock value. -/
theorem Sensor.update_stuck (s : Sensor) (master : Bool) (slave : Sensor) (now : Nat)
    (h1 : s.trigger_at = 0) (h2 : s.timeout_at = 0) (hecho : s.start = 0 ∨ s.end_ = 0) :
    s.update master slave now = { self := s, slave := slave, pins := [] } := by
  rw [Sensor.update_of_no_echo s master slave now hecho,
    Sensor.trigger_of_trigger_at_zero s master slave now h1]
  simp only [Sensor.check_timeout, h2]
  rw [if_neg (by omega)]

/-- C20 (the claim fails). The sensor `sensors[0]` as constructed, updated as
master at `now = 4294917296 = 2^32 - 50000`: the call arms it
(`triggered = 4294917296`) and `timeout_at = now + 50000` wraps to 0, the value
for "not scheduled".  The state is reachable, it has `triggered > 0` and
`timeout_at = 0`, and without an echo every later call of `update`, at any clock
value, leaves it as it is: the sensor stays armed. -/
theorem C20_armed_without_timeout :
    Sensor.Reachable
      ((Sensor.new 1 15 4).update true (Sensor.new 2 25 26) 4294917296).self ∧
    ((Sensor.new 1 15 4).update true (Sensor.new 2 25 26) 4294917296).self.triggered
      = 4294917296 ∧
    ((Sensor.new 1 15 4).update true (Sensor.new 2 25 26) 4294917296).self.timeout_at = 0 ∧
    ¬ (((Sensor.new 1 15 4).update true (Sensor.new 2 25 26) 4294917296).self.triggered > 0 →
        ((Sensor.new 1 15 4).update true (Sensor.new 2 25 26) 4294917296).self.timeout_at
          > 0) ∧
    (∀ (master : Bool) (slave : Sensor) (now : Nat),
      (((Sensor.new 1 15 4).update true (Sensor.new 2 25 26) 4294917296).self.update
          master slave now).self
        = ((Sensor.new 1 15 4).update true (Sensor.new 2 25 26) 4294917296).self) := by
  refine ⟨Sensor.Reachable.update _ true _ 4294917296 (Sensor.Reachable.new 1 15 4),
    by decide, by decide, by decide, ?_⟩
  intro master slave now
  rw [Sensor.update_stuck _ master slave now (by decide) (by decide) (Or.inl (by decide))]

/-- C20 (amended). In every state of a sensor reachable from its construction by
`update` calls with arbitrary clock values and echo interrupts, `triggered > 0`
implies `timeout_at = (triggered + 50000) mod 2^32`.  That value is `> 0` exactly
when `triggered + 50000` is not a multiple of `2^32`, in particular when
`triggered + 50000 < 2^32`; then an armed sensor with no echo takes the timeout
branch at every call with `now > timeout_at`.  When the value is 0 the sensor
stays armed at every call until an echo arrives. -/
theorem C20_timeout_scheduled (s : Sensor) (hreach : Sensor.Reachable s) :
    (s.triggered > 0 → s.timeout_at = (s.triggered + 50000) % 4294967296) ∧
    (s.triggered > 0 → (s.timeout_at > 0 ↔ (s.triggered + 50000) % 4294967296 ≠ 0)) ∧
    (s.triggered > 0 → s.triggered + 50000 < 4294967296 → s.timeout_at > 0) ∧
    (s.triggered > 0 → s.timeout_at > 0 → (s.start = 0 ∨ s.end_ = 0) →
      ∀ (master : Bool) (slave : Sensor) (now : Nat), now > s.timeout_at →
        (s.update master slave now).self.measurement.timeout = true ∧
        (s.update master slave now).self.has_new_measurement = true ∧
        (s.update master slave now).self.triggered = 0) ∧
    (s.triggered > 0 → s.timeout_at = 0 → (s.start = 0 ∨ s.end_ = 0) →
      ∀ (master : Bool) (slave : Sensor) (now : Nat),
        (s.update master slave now).self = s) := by
  have hinv := Sensor.Reachable.timeout_scheduled s hreach
  have hex := Sensor.Reachable.exclusive s hreach
  have hto : s.triggered > 0 → s.timeout_at = (s.triggered + 50000) % 4294967296 := by
    intro hpos
    rcases hinv with ⟨h0, _⟩ | ⟨_, h⟩
    · omega
    · exact h
  have harmed : s.triggered > 0 → s.trigger_at = 0 := by
    intro hpos
    unfold Sensor.exclusive at hex
    omega
  refine ⟨hto, ?_, ?_, ?_, ?_⟩
  · intro hpos
    rw [hto hpos]
    omega
  · intro hpos hfit
    rw [hto hpos]
    omega
  · intro hpos hset hecho master slave now hnow
    rw [Sensor.update_of_no_echo s master slave now hecho,
      Sensor.trigger_of_trigger_at_zero s master slave now (harmed hpos)]
    simp only [Sensor.check_timeout, if_pos (And.intro hset hnow), and_self]
  · intro hpos hzero hecho master slave now
    rw [Sensor.update_stuck s master slave now (harmed hpos) hzero hecho]

/-- C20 (amended) for `sensors[0]` as constructed, armed at `now = 2`:
`timeout_at = 50002 > 0`. -/
theorem C20_timeout_scheduled_witness :
    ((Sensor.new 1 15 4).update true (Sensor.new 2 25 26) 2).self.timeout_at > 0 :=
  (C20_timeout_scheduled _
    (Sensor.Reachable.update _ true (Sensor.new 2 25 26) 2
      (Sensor.Reachable.new 1 15 4))).2.2.1 (by decide) (by decide)

end OBS
